import Mathlib

/-!
Verification of the BestSecurity Meeting Manager availability and booking
engine.  The Python sources under `meeting_manager/` are shallowly embedded:

* dates are integers counting days from an epoch that falls on a Monday, so
  `d.emod 7` is Python's `date.weekday()` (Monday = 0);
* times of day are integer minutes since midnight; datetimes are integer
  minutes since the epoch, so `combine(date, time) = 1440 * date + time`,
  `dt.date() = dt.ediv 1440` and `dt.time() = dt.emod 1440`;
* database tables are Lean lists of records, SQL filters are list filters,
  and `frappe.get_value` / `get_doc` are `List.find?`;
* `frappe.throw` is `Except.error`; a document `save`/`insert` is a pure
  update of the bookings (resp. customers) list, returned with the result.
-/

namespace MeetingManager

/-- Two-digit rendering of a non-negative number, as in `strftime`. -/
def pad2 (n : Int) : String :=
  if n < 10 then "0" ++ toString n else toString n

/-- Render minutes-since-midnight as `HH:MM` (Python `strftime("%H:%M")`). -/
def fmtHM (t : Int) : String :=
  pad2 (t.ediv 60) ++ ":" ++ pad2 (t.emod 60)

/-- `MM User Blocked Slot` row (`utils/validation.py`, `check_blocked_slots`).
`reason` is `none` for a NULL/empty reason, which Python's `or` replaces. -/
structure BlockedSlot where
  user : String
  blockedDate : Int
  startTime : Int
  endTime : Int
  reason : Option String
deriving Repr, DecidableEq

/-- One weekday entry of the working-hours JSON, with the `dict.get` defaults
of `check_working_hours` already resolved (`enabled` = False, `start` =
"00:00", `end` = "23:59"). -/
structure DayConfig where
  enabled : Bool
  start : Int
  endT : Int
deriving Repr, DecidableEq

/-- Parsed working-hours JSON: a mapping from lowercase weekday name to its
config (`json.loads` of `working_hours_json`). -/
abbrev Schedule := List (String × DayConfig)

/-- The `working_hours_json` field of `MM User Settings`: absent/empty,
unparseable, or valid JSON. -/
inductive WHJson where
  | missing : WHJson
  | invalid : WHJson
  | valid : Schedule → WHJson
deriving Repr, DecidableEq

/-- `MM User Settings` row. -/
structure UserSettings where
  user : String
  workingHours : WHJson
deriving Repr, DecidableEq

/-- `MM User Availability Rule` row.  The buffer and quota fields collapse a
DB NULL to 0 exactly as the Python does (`x or 0`, and `if rule.max_…:`
which is false for both `None` and `0`). -/
structure AvailabilityRule where
  name : String
  user : String
  isDefault : Bool
  bufferBefore : Int
  bufferAfter : Int
  maxPerDay : Int
  maxPerWeek : Int
deriving Repr, DecidableEq

/-- `MM User Date Overrides` child row (parent = availability rule name).
`customStart`/`customEnd` are `none` for NULL custom hours. -/
structure DateOverride where
  parent : String
  date : Int
  available : Bool
  customStart : Option Int
  customEnd : Option Int
  reason : Option String
deriving Repr, DecidableEq

/-- `MM Meeting Booking Assigned User` child row. -/
structure AssignedUser where
  user : String
  isPrimaryHost : Bool
  assignedBy : Option String := none
deriving Repr, DecidableEq

/-- `MM Meeting Booking Participant` child row. -/
structure Participant where
  user : String
  participantType : String
deriving Repr, DecidableEq

/-- `MM Meeting Booking History` child row; only the keys actually written
by the embedded operations are modelled, all optional. -/
structure HistoryEntry where
  action : String
  description : Option String := none
  performedBy : Option String := none
  actionBy : Option String := none
  actionByRole : Option String := none
  actionDatetime : Option Int := none
  oldValue : Option String := none
  newValue : Option String := none
  notes : Option String := none
deriving Repr, DecidableEq

/-- `MM Meeting Booking` document (the fields read or written by the
embedded code paths). `status` is the legacy field used by
`update_booking_status`; `bookingStatus` is the field used by the finalized
checks and the conflict queries. -/
structure Booking where
  name : String
  bookingStatus : String
  status : String
  startDatetime : Int
  endDatetime : Int
  duration : Int
  isInternal : Bool
  meetingType : Option String
  department : Option String
  assignedUsers : List AssignedUser
  participants : List Participant
  history : List HistoryEntry := []
  cancellationReason : Option String := none
  cancelledByRole : Option String := none
  cancelledDatetime : Option Int := none
  cancellationNotes : Option String := none
deriving Repr, DecidableEq

/-- `MM Calendar Event Sync` row. -/
structure CalendarEventSync where
  name : String
  calendarIntegration : String
  eventTitle : Option String
  startDatetime : Int
  endDatetime : Int
  isBlocking : Bool
  eventType : String
  syncStatus : String
deriving Repr, DecidableEq

/-- `MM Calendar Integration` row. -/
structure CalendarIntegration where
  name : String
  user : String
deriving Repr, DecidableEq

/-- `MM Department` row. -/
structure Department where
  name : String
  departmentName : String
  departmentLeader : String
  isActive : Bool
deriving Repr, DecidableEq

/-- `MM Department Member` child row. -/
structure DepartmentMember where
  parent : String
  member : String
  isActive : Bool
deriving Repr, DecidableEq

/-- `MM Meeting Type` row (the field read by the booking operations). -/
structure MeetingType where
  name : String
  department : Option String
deriving Repr, DecidableEq

/-- The relational store the embedded functions read.  `users` maps a user id
to its `full_name` (for messages; `frappe.get_value` misses are `none`). -/
structure DB where
  blockedSlots : List BlockedSlot
  userSettings : List UserSettings
  availabilityRules : List AvailabilityRule
  dateOverrides : List DateOverride
  bookings : List Booking
  calendarEvents : List CalendarEventSync
  calendarIntegrations : List CalendarIntegration
  departments : List Department
  departmentMembers : List DepartmentMember
  meetingTypes : List MeetingType
  users : List (String × String)
deriving Repr, DecidableEq

/-- Result of `check_blocked_slots`. -/
structure BlockedResult where
  available : Bool
  reason : Option String
  hasBlockedSlot : Bool
deriving Repr, DecidableEq

/-- Result of `check_date_overrides`. -/
structure OverrideResult where
  available : Bool
  reason : Option String
  hasOverride : Bool
deriving Repr, DecidableEq

/-- Result of `check_working_hours` / `check_availability_rules`. -/
structure CheckResult where
  available : Bool
  reason : Option String
deriving Repr, DecidableEq

/-- One entry of the orchestrator's `conflicts` list. -/
structure Conflict where
  ctype : String
  message : String
  bookingId : Option String := none
  eventTitle : Option String := none
deriving Repr, DecidableEq

/-- Result of `check_member_availability`. -/
structure AvailabilityResult where
  available : Bool
  conflicts : List Conflict
  reason : Option String
deriving Repr, DecidableEq

/-- The message built for an overlapping blocked slot:
`f"Blocked: {reason} ({slot.start_time} - {slot.end_time})"`. -/
def blockedSlotMessage (s : BlockedSlot) : String :=
  "Blocked: " ++ s.reason.getD "Time slot is blocked" ++ " (" ++
    fmtHM s.startTime ++ " - " ++ fmtHM s.endTime ++ ")"

/-- `check_blocked_slots` (`utils/validation.py` lines 17-61): fetch the
member's blocked slots for the date and return unavailable on the first one
overlapping the half-open candidate interval. -/
def checkBlockedSlots (db : DB) (member : String) (scheduledDate startT endT : Int) :
    BlockedResult :=
  let slots := db.blockedSlots.filter
    (fun s => s.user == member && s.blockedDate == scheduledDate)
  match slots.find? (fun s => !(decide (endT ≤ s.startTime) || decide (startT ≥ s.endTime))) with
  | some s => ⟨false, some (blockedSlotMessage s), true⟩
  | none => ⟨true, none, false⟩

/-- Lowercase weekday names indexed by Python's `date.weekday()`. -/
def dayNames : List String :=
  ["monday", "tuesday", "wednesday", "thursday", "friday", "saturday", "sunday"]

/-- Python `str.capitalize()` (first char uppercased, rest lowercased). -/
def pyCapitalize (s : String) : String :=
  match s.toList with
  | [] => ""
  | c :: rest => String.mk (c.toUpper :: rest.map Char.toLower)

/-- `check_working_hours` (`utils/validation.py` lines 170-219).  No settings
row, an empty field, or unparseable JSON all fall back to unrestricted
availability. -/
def checkWorkingHours (db : DB) (member : String) (scheduledDate startT endT : Int) :
    CheckResult :=
  match db.userSettings.find? (fun u => u.user == member) with
  | none => ⟨true, none⟩
  | some settings =>
    match settings.workingHours with
    | WHJson.missing => ⟨true, none⟩
    | WHJson.invalid => ⟨true, none⟩
    | WHJson.valid schedule =>
      let dayName := dayNames.getD (scheduledDate.emod 7).toNat ""
      let dayConfig := ((schedule.find? (fun p => p.1 == dayName)).map Prod.snd).getD
        ⟨false, 0, 1439⟩
      if !dayConfig.enabled then
        ⟨false, some ("Member is not available on " ++ pyCapitalize dayName ++ "s")⟩
      else if decide (startT < dayConfig.start) || decide (endT > dayConfig.endT) then
        ⟨false, some ("Time is outside working hours (" ++ fmtHM dayConfig.start ++
          " - " ++ fmtHM dayConfig.endT ++ ")")⟩
      else ⟨true, none⟩

/-- Stable insertion used by `stableSortBy` (keeps earlier elements first
among equals). -/
def insSorted (le : α → α → Bool) (x : α) : List α → List α
  | [] => [x]
  | y :: ys => if le y x then y :: insSorted le x ys else x :: y :: ys

/-- Stable sort by a boolean `le`, modelling a SQL `ORDER BY`. -/
def stableSortBy (le : α → α → Bool) (l : List α) : List α :=
  l.foldl (fun acc x => insSorted le x acc) []

/-- SQL ascending order on a nullable column: NULLs sort first. -/
def optIntLe : Option Int → Option Int → Bool
  | none, _ => true
  | some _, none => false
  | some a, some b => decide (a ≤ b)

/-- Python truthiness of a nullable time value (`None` and midnight are
falsy, as for an empty `timedelta`). -/
def optTruthy : Option Int → Bool
  | none => false
  | some v => v != 0

/-- The override rows `check_date_overrides` collects: for each of the
member's availability rules (in table order), the rows for the date ordered
by `custom_hours_start`, concatenated. -/
def collectDateOverrides (rules : List AvailabilityRule) (ovs : List DateOverride)
    (member : String) (scheduledDate : Int) : List DateOverride :=
  (rules.filter (fun r => r.user == member)).foldl
    (fun acc r =>
      acc ++ stableSortBy (fun a b => optIntLe a.customStart b.customStart)
        (ovs.filter (fun o => o.parent == r.name && o.date == scheduledDate)))
    []

/-- `check_date_overrides` (`utils/validation.py` lines 222-304). -/
def checkDateOverrides (db : DB) (member : String) (scheduledDate startT endT : Int) :
    OverrideResult :=
  let rules := db.availabilityRules.filter (fun r => r.user == member)
  if rules.isEmpty then ⟨true, none, false⟩
  else
    let allOverrides := collectDateOverrides db.availabilityRules db.dateOverrides
      member scheduledDate
    if allOverrides.isEmpty then ⟨true, none, false⟩
    else
      match allOverrides.find? (fun o => !o.available) with
      | some o => ⟨false, some (o.reason.getD "Member is not available on this date"), true⟩
      | none =>
        let availableSlots := allOverrides.filterMap (fun o =>
          if o.available && optTruthy o.customStart && optTruthy o.customEnd then
            some (o.customStart.getD 0, o.customEnd.getD 0)
          else none)
        if availableSlots.isEmpty then ⟨true, none, true⟩
        else if availableSlots.any (fun se => decide (startT ≥ se.1) && decide (endT ≤ se.2)) then
          ⟨true, none, true⟩
        else
          ⟨false, some ("Time is outside available slots for this date: " ++
            String.intercalate ", "
              (availableSlots.map (fun se => fmtHM se.1 ++ "-" ++ fmtHM se.2))), true⟩

/-- `booking_status IN ('Confirmed', 'Pending')`. -/
def isActiveStatus (b : Booking) : Bool :=
  b.bookingStatus == "Confirmed" || b.bookingStatus == "Pending"

/-- Membership via the `assigned_users` child table (host role). -/
def isHost (b : Booking) (member : String) : Bool :=
  b.assignedUsers.any (fun au => au.user == member)

/-- Membership via the `participants` child table with type `Internal`. -/
def isInternalParticipant (b : Booking) (member : String) : Bool :=
  b.participants.any (fun p => p.user == member && p.participantType == "Internal")

/-- `AND mb.name != exclude_booking` (only added when an exclusion is given). -/
def notExcluded (excl : Option String) (b : Booking) : Bool :=
  match excl with
  | none => true
  | some e => b.name != e

/-- One row of `check_booking_conflicts`' output. -/
structure BookingConflict where
  bookingId : String
  message : String
deriving Repr, DecidableEq

/-- `check_booking_conflicts` (`utils/validation.py` lines 307-394): host
and internal-participant queries over active bookings overlapping the
candidate datetime window, de-duplicated by booking name with host rows
taking precedence. -/
def checkBookingConflicts (db : DB) (member : String)
    (scheduledDate startT endT : Int) (excl : Option String) : List BookingConflict :=
  let sStart := 1440 * scheduledDate + startT
  let sEnd := 1440 * scheduledDate + endT
  let overlap := fun (b : Booking) =>
    decide (b.startDatetime < sEnd) && decide (b.endDatetime > sStart)
  let hostBookings := db.bookings.filter (fun b =>
    isHost b member && isActiveStatus b && overlap b && notExcluded excl b)
  let participantBookings := db.bookings.filter (fun b =>
    isInternalParticipant b member && isActiveStatus b && overlap b && notExcluded excl b)
  let combined := hostBookings.map (fun b => (b, "host")) ++
    (participantBookings.filter
      (fun b => !hostBookings.any (fun h => h.name == b.name))).map
      (fun b => (b, "participant"))
  combined.map (fun br =>
    let roleInfo := if br.2 == "participant" then " (as participant)" else ""
    ⟨br.1.name,
      "Conflicts with existing booking " ++ br.1.name ++ roleInfo ++ " (" ++
        fmtHM (br.1.startDatetime.emod 1440) ++ " - " ++
        fmtHM (br.1.endDatetime.emod 1440) ++ ")"⟩)

/-- One row of `check_calendar_event_conflicts`' output. -/
structure CalendarConflict where
  eventTitle : String
  message : String
deriving Repr, DecidableEq

/-- `check_calendar_event_conflicts` (`utils/validation.py` lines 397-440):
synced, blocking, non-all-day events of the member's integrations
overlapping the datetime window. -/
def checkCalendarEventConflicts (db : DB) (member : String)
    (startDT endDT : Int) : List CalendarConflict :=
  let events := db.calendarEvents.filter (fun e =>
    db.calendarIntegrations.any (fun ci => e.calendarIntegration == ci.name &&
      ci.user == member) &&
    e.isBlocking && e.eventType != "All-Day Event" && e.syncStatus == "Synced" &&
    decide (e.startDatetime < endDT) && decide (e.endDatetime > startDT))
  events.map (fun e =>
    ⟨e.eventTitle.getD "Busy",
      "Conflicts with calendar event: " ++ e.eventTitle.getD "Busy" ++ " (" ++
        fmtHM (e.startDatetime.emod 1440) ++ " - " ++
        fmtHM (e.endDatetime.emod 1440) ++ ")"⟩)

/-- `frappe.get_all(..., order_by="is_default desc", limit=1)` over the
member's availability rules: the first default-flagged rule, else the first
rule. -/
def pickRule (rules : List AvailabilityRule) : Option AvailabilityRule :=
  match rules.filter (fun r => r.isDefault) with
  | r :: _ => some r
  | [] => rules.head?

/-- `check_buffer_time_conflicts` (`utils/validation.py` lines 443-557):
same-day active bookings intersecting the expanded buffer window, flagged as
before-side or after-side violations. -/
def checkBufferTimeConflicts (db : DB) (member : String)
    (startDT endDT : Int) (excl : Option String) : List String :=
  match pickRule (db.availabilityRules.filter (fun r => r.user == member)) with
  | none => []
  | some rule =>
    let bufferBefore := rule.bufferBefore
    let bufferAfter := rule.bufferAfter
    if bufferBefore == 0 && bufferAfter == 0 then []
    else
      let bufferStart := startDT - bufferBefore
      let bufferEnd := endDT + bufferAfter
      let scheduledDate := startDT.ediv 1440
      let selected := fun (b : Booking) =>
        decide (b.startDatetime.ediv 1440 = scheduledDate) && isActiveStatus b &&
        ((decide (b.startDatetime ≥ bufferStart) && decide (b.startDatetime < bufferEnd)) ||
         (decide (b.endDatetime > bufferStart) && decide (b.endDatetime ≤ bufferEnd))) &&
        notExcluded excl b
      let hostBookings := db.bookings.filter (fun b => isHost b member && selected b)
      let participantBookings := db.bookings.filter (fun b =>
        isInternalParticipant b member && selected b)
      let nearby := hostBookings ++ participantBookings.filter
        (fun b => !hostBookings.any (fun h => h.name == b.name))
      nearby.filterMap (fun b =>
        if !(decide (b.endDatetime ≤ bufferStart) || decide (b.startDatetime ≥ bufferEnd)) then
          if decide (b.endDatetime > bufferStart) && decide (b.endDatetime ≤ startDT) then
            some ("Violates " ++ toString bufferBefore ++
              "-minute buffer before meeting (conflicts with " ++ b.name ++ ")")
          else if decide (b.startDatetime < bufferEnd) && decide (b.startDatetime ≥ endDT) then
            some ("Violates " ++ toString bufferAfter ++
              "-minute buffer after meeting (conflicts with " ++ b.name ++ ")")
          else none
        else none)

/-- The daily quota count: distinct names of active bookings on the date
where the member is a host or an internal participant (the SQL `UNION` of
the two sub-selects). -/
def quotaDayCount (db : DB) (member : String) (scheduledDate : Int) : Nat :=
  (((db.bookings.filter (fun b =>
      isActiveStatus b && decide (b.startDatetime.ediv 1440 = scheduledDate) &&
      (isHost b member || isInternalParticipant b member))).map
    (fun b => b.name)).eraseDups).length

/-- The weekly quota count over the Monday-Sunday week containing the date. -/
def quotaWeekCount (db : DB) (member : String) (scheduledDate : Int) : Nat :=
  let weekStart := scheduledDate - scheduledDate.emod 7
  let weekEnd := weekStart + 6
  (((db.bookings.filter (fun b =>
      isActiveStatus b &&
      decide (weekStart ≤ b.startDatetime.ediv 1440) &&
      decide (b.startDatetime.ediv 1440 ≤ weekEnd) &&
      (isHost b member || isInternalParticipant b member))).map
    (fun b => b.name)).eraseDups).length

/-- `check_availability_rules` (`utils/validation.py` lines 560-651):
max-bookings-per-day, then max-bookings-per-week, against the first default
rule; an unset (NULL/0) limit is skipped. -/
def checkAvailabilityRules (db : DB) (member : String) (scheduledDate : Int) :
    CheckResult :=
  match pickRule (db.availabilityRules.filter (fun r => r.user == member)) with
  | none => ⟨true, none⟩
  | some rule =>
    if rule.maxPerDay != 0 &&
        decide ((quotaDayCount db member scheduledDate : Int) ≥ rule.maxPerDay) then
      ⟨false, some ("Member has reached maximum bookings per day (" ++
        toString rule.maxPerDay ++ ")")⟩
    else if rule.maxPerWeek != 0 &&
        decide ((quotaWeekCount db member scheduledDate : Int) ≥ rule.maxPerWeek) then
      ⟨false, some ("Member has reached maximum bookings per week (" ++
        toString rule.maxPerWeek ++ ")")⟩
    else ⟨true, none⟩

/-- The end time-of-day the orchestrator derives from the start and the
duration (`(datetime.combine(date, start) + timedelta(minutes=duration)).time()`). -/
def candidateEndTime (scheduledDate startT duration : Int) : Int :=
  (1440 * scheduledDate + startT + duration).emod 1440

/-- `check_member_availability` (`utils/validation.py` lines 64-167): the
availability orchestrator.  Blocked slots short-circuit; a date override
replaces the working-hours check; the remaining checkers append conflicts. -/
def check_member_availability (db : DB) (member : String)
    (scheduledDate startT duration : Int) (excludeBooking : Option String) :
    AvailabilityResult :=
  let startDT := 1440 * scheduledDate + startT
  let endDT := startDT + duration
  let endT := endDT.emod 1440
  let blockedCheck := checkBlockedSlots db member scheduledDate startT endT
  if !blockedCheck.available then
    let msg := blockedCheck.reason.getD ""
    ⟨false, [⟨"blocked_slot", msg, none, none⟩], some msg⟩
  else
    let overrideCheck := checkDateOverrides db member scheduledDate startT endT
    let conflicts1 : List Conflict :=
      if overrideCheck.hasOverride then
        if !overrideCheck.available then
          [⟨"date_override", overrideCheck.reason.getD "", none, none⟩]
        else []
      else
        let whCheck := checkWorkingHours db member scheduledDate startT endT
        if !whCheck.available then
          [⟨"working_hours", whCheck.reason.getD "", none, none⟩]
        else []
    let conflicts2 := conflicts1 ++
      (checkBookingConflicts db member scheduledDate startT endT excludeBooking).map
        (fun bc => ⟨"booking_conflict", bc.message, some bc.bookingId, none⟩)
    let conflicts3 := conflicts2 ++
      (checkCalendarEventConflicts db member startDT endDT).map
        (fun cc => ⟨"calendar_event", cc.message, none, some cc.eventTitle⟩)
    let conflicts4 := conflicts3 ++
      (checkBufferTimeConflicts db member startDT endDT excludeBooking).map
        (fun m => ⟨"buffer_time", m, none, none⟩)
    let ruleCheck := checkAvailabilityRules db member scheduledDate
    let conflicts5 :=
      if !ruleCheck.available then
        conflicts4 ++ [⟨"availability_rule", ruleCheck.reason.getD "", none, none⟩]
      else conflicts4
    ⟨conflicts5.isEmpty, conflicts5, conflicts5.head?.map (fun c => c.message)⟩

/-! ### Booking state machine (`api/booking.py`, `page/mm_enhanced_calendar/api.py`) -/

/-- The request context threaded implicitly through the Python code via
`frappe.session` and `frappe.utils.now_datetime` / `getdate()`. -/
structure Ctx where
  sessionUser : String
  roles : List String
  now : Int
  today : Int
deriving Repr, DecidableEq

/-- The finalized booking statuses (`api/booking.py` lines 316, 449). -/
def finalizedStatuses : List String :=
  ["Cancelled", "Sale Approved", "Booking Approved Not Sale", "Not Possible", "Completed"]

/-- `booking.get("department")` with fallback to the meeting type's
department (`api/booking.py`, used by the permission helpers and
`reassign_booking`). -/
def resolveDepartment (db : DB) (b : Booking) : Option String :=
  match b.department with
  | some d => some d
  | none => b.meetingType.bind (fun mt =>
      (db.meetingTypes.find? (fun t => t.name == mt)).bind (fun t => t.department))

/-- `has_permission_to_manage_booking` (`api/booking.py` lines 629-655). -/
def hasPermissionToManageBooking (db : DB) (ctx : Ctx) (b : Booking) : Bool :=
  if ctx.roles.contains "System Manager" then true
  else
    let department := resolveDepartment db b
    let isLeader :=
      ctx.roles.contains "Department Leader" &&
      (match department with
       | some d => db.departments.any (fun dep =>
           dep.name == d && dep.departmentLeader == ctx.sessionUser)
       | none => false)
    if isLeader then true
    else b.assignedUsers.any (fun au => au.user == ctx.sessionUser)

/-- `get_user_role_for_booking` (`api/booking.py` lines 658-678). -/
def getUserRoleForBooking (db : DB) (ctx : Ctx) (b : Booking) : String :=
  if ctx.roles.contains "System Manager" then "System Manager"
  else
    let department := resolveDepartment db b
    if (match department with
        | some d => db.departments.any (fun dep =>
            dep.name == d && dep.departmentLeader == ctx.sessionUser)
        | none => false) then "Department Leader"
    else if b.assignedUsers.any (fun au => au.user == ctx.sessionUser) then "Host"
    else "User"

/-- `frappe.get_value("User", u, "full_name")`, rendered in an f-string
(`None` when missing). -/
def userFullName (db : DB) (u : String) : String :=
  (db.users.lookup u).getD "None"

/-- `booking.save()`: write the updated document back to the table. -/
def replaceBooking (bookings : List Booking) (b : Booking) : List Booking :=
  bookings.map (fun x => if x.name == b.name then b else x)

/-- The in-place `primary_host_row.user = new_assigned_to` of
`reassign_booking`: the first `is_primary_host` row, else the first row. -/
def setPrimaryUser (newUser : String) : List AssignedUser → List AssignedUser
  | [] => []
  | au :: rest =>
    if au.isPrimaryHost then {au with user := newUser} :: rest
    else au :: setPrimaryUser newUser rest

/-- Result of `reassign_booking`. -/
structure ReassignResult where
  success : Bool
  message : String
  oldAssignedTo : String
  newAssignedTo : String
deriving Repr, DecidableEq

/-- The member-list rendering of the reassignment error message
(a Python list literal of the active members). -/
def renderMemberList (members : List String) : String :=
  "[" ++ String.intercalate ", " (members.map (fun m => "'" ++ m ++ "'")) ++ "]"

/-- `reassign_booking` (`api/booking.py` lines 286-416).  Note: it carries no
`is_internal` guard; the assignment-tracking side table is not modelled. -/
def reassign_booking (db : DB) (ctx : Ctx) (bookingId newAssignedTo : String) :
    Except String (DB × ReassignResult) :=
  match db.bookings.find? (fun b => b.name == bookingId) with
  | none => Except.error ("MM Meeting Booking " ++ bookingId ++ " not found")
  | some booking =>
    if !hasPermissionToManageBooking db ctx booking then
      Except.error "You don't have permission to reassign this booking"
    else if finalizedStatuses.contains booking.bookingStatus then
      Except.error ("Cannot reassign '" ++ booking.bookingStatus ++ "' bookings")
    else
      let departmentToCheck := resolveDepartment db booking
      let memberOk :=
        match departmentToCheck with
        | none => true
        | some d => db.departmentMembers.any (fun m =>
            m.parent == d && m.member == newAssignedTo && m.isActive)
      if !memberOk then
        let allActive := (db.departmentMembers.filter (fun m =>
          m.parent == departmentToCheck.getD "" && m.isActive)).map (fun m => m.member)
        Except.error ("The new member '" ++ newAssignedTo ++
          "' is not an active member of department '" ++ departmentToCheck.getD "" ++
          "'. Available members: " ++ renderMemberList allActive)
      else
        let scheduledDate := booking.startDatetime.ediv 1440
        let scheduledStartTime := booking.startDatetime.emod 1440
        let availability := check_member_availability db newAssignedTo scheduledDate
          scheduledStartTime booking.duration (some booking.name)
        if !availability.available then
          Except.error ("New member is not available at this time: " ++
            availability.reason.getD "")
        else
          let oldAssignedTo : Option String :=
            match booking.assignedUsers.find? (fun au => au.isPrimaryHost) with
            | some au => some au.user
            | none => (booking.assignedUsers.head?).map (fun au => au.user)
          let newAssigned :=
            match oldAssignedTo with
            | some _ =>
              if booking.assignedUsers.any (fun au => au.isPrimaryHost) then
                setPrimaryUser newAssignedTo booking.assignedUsers
              else
                match booking.assignedUsers with
                | [] => []
                | au :: rest => {au with user := newAssignedTo} :: rest
            | none => booking.assignedUsers ++
                [{user := newAssignedTo, isPrimaryHost := true,
                  assignedBy := some ctx.sessionUser}]
          let oldMemberName :=
            match oldAssignedTo with
            | some u => userFullName db u
            | none => "Unknown"
          let newMemberName := userFullName db newAssignedTo
          let entry : HistoryEntry :=
            {action := "Reassigned",
             description := some ("Reassigned from " ++ oldMemberName ++ " to " ++
               newMemberName),
             performedBy := some ctx.sessionUser}
          let booking' := {booking with
            assignedUsers := newAssigned
            history := booking.history ++ [entry]}
          Except.ok ({db with bookings := replaceBooking db.bookings booking'},
            ⟨true,
             "Booking reassigned successfully. Notifications will be sent to all parties.",
             oldMemberName, newMemberName⟩)

/-- Result of `reschedule_booking_internal` / `update_booking_status`. -/
structure SimpleResult where
  success : Bool
  message : String
deriving Repr, DecidableEq

/-- `reschedule_booking_internal` (`api/booking.py` lines 419-508). -/
def reschedule_booking_internal (db : DB) (ctx : Ctx) (bookingId : String)
    (newDate newTime : Int) : Except String (DB × SimpleResult) :=
  match db.bookings.find? (fun b => b.name == bookingId) with
  | none => Except.error ("MM Meeting Booking " ++ bookingId ++ " not found")
  | some booking =>
    if !hasPermissionToManageBooking db ctx booking then
      Except.error "You don't have permission to reschedule this booking"
    else if finalizedStatuses.contains booking.bookingStatus then
      Except.error ("Cannot reschedule '" ++ booking.bookingStatus ++ "' bookings")
    else if newDate < ctx.today then
      Except.error "Cannot reschedule to a date in the past"
    else
      let newStartDatetime := 1440 * newDate + newTime
      let newEndDatetime := newStartDatetime + booking.duration
      let primaryUser : Option String :=
        match booking.assignedUsers.find? (fun au => au.isPrimaryHost) with
        | some au => some au.user
        | none => (booking.assignedUsers.head?).map (fun au => au.user)
      let availabilityFailure : Option String :=
        match primaryUser with
        | none => none
        | some u =>
          let availability := check_member_availability db u newDate newTime
            booking.duration (some booking.name)
          if !availability.available then
            some ("Member is not available at the new time: " ++
              availability.reason.getD "")
          else none
      match availabilityFailure with
      | some msg => Except.error msg
      | none =>
        let entry : HistoryEntry :=
          {action := "Rescheduled",
           description := some ("Rescheduled from " ++ toString booking.startDatetime ++
             " to " ++ toString newStartDatetime),
           performedBy := some ctx.sessionUser}
        let booking' := {booking with
          startDatetime := newStartDatetime
          endDatetime := newEndDatetime
          history := booking.history ++ [entry]}
        Except.ok ({db with bookings := replaceBooking db.bookings booking'},
          ⟨true, "Booking rescheduled successfully. Notifications will be sent to all parties."⟩)

/-- `update_booking_status` (`api/booking.py` lines 511-572).  It validates
the target status and permissions but performs no finalized-status check. -/
def update_booking_status (db : DB) (ctx : Ctx) (bookingId newStatus : String)
    (notes : Option String) : Except String (DB × SimpleResult) :=
  match db.bookings.find? (fun b => b.name == bookingId) with
  | none => Except.error ("MM Meeting Booking " ++ bookingId ++ " not found")
  | some booking =>
    if !hasPermissionToManageBooking db ctx booking then
      Except.error "You don't have permission to update this booking"
    else
      let validStatuses := ["Confirmed", "Cancelled", "Completed", "No-show"]
      if !validStatuses.contains newStatus then
        Except.error ("Invalid status. Must be one of: " ++
          String.intercalate ", " validStatuses)
      else
        let oldStatus := booking.status
        let b1 := {booking with status := newStatus}
        let b2 :=
          if newStatus == "Cancelled" then
            {b1 with
              cancellationReason := some "Other"
              cancelledByRole := some (getUserRoleForBooking db ctx b1)
              cancelledDatetime := some ctx.now
              cancellationNotes := notes}
          else b1
        let entry : HistoryEntry :=
          {action := "Status changed to " ++ newStatus,
           actionBy := some ctx.sessionUser,
           actionByRole := some (getUserRoleForBooking db ctx b2),
           actionDatetime := some ctx.now,
           oldValue := some oldStatus,
           newValue := some newStatus,
           notes := some (notes.getD ("Status changed from " ++ oldStatus ++ " to " ++
             newStatus))}
        let b3 := {b2 with history := b2.history ++ [entry]}
        Except.ok ({db with bookings := replaceBooking db.bookings b3},
          ⟨true, "Booking status updated to " ++ newStatus ++
            ". Notifications will be sent as configured."⟩)

/-- `get_user_role_level` (`page/mm_enhanced_calendar/api.py` lines 19-38). -/
def getUserRoleLevel (ctx : Ctx) : String × String :=
  if ctx.roles.contains "System Manager" then ("system_manager", "System Manager")
  else if ctx.roles.contains "MM Department Leader" then
    ("department_leader", "Department Leader")
  else if ctx.roles.contains "MM Department Member" then
    ("department_member", "Department Member")
  else ("guest", "Guest")

/-- One entry of `get_user_departments`' output. -/
structure DeptAccess where
  name : String
  departmentName : String
  isLeader : Bool
  isMember : Bool
deriving Repr, DecidableEq

/-- `get_user_departments` (`page/mm_enhanced_calendar/api.py` lines 41-103). -/
def getUserDepartments (db : DB) (ctx : Ctx) : List DeptAccess :=
  let roleLevel := (getUserRoleLevel ctx).1
  if roleLevel == "system_manager" then
    (db.departments.filter (fun d => d.isActive)).map
      (fun d => ⟨d.name, d.departmentName, true, true⟩)
  else
    let ledDepts := db.departments.filter (fun d =>
      d.departmentLeader == ctx.sessionUser && d.isActive)
    let ledNames := ledDepts.map (fun d => d.name)
    ledDepts.map (fun d => (⟨d.name, d.departmentName, true, true⟩ : DeptAccess)) ++
      (db.departments.filter (fun d =>
        d.isActive && !ledNames.contains d.name &&
        db.departmentMembers.any (fun m =>
          m.parent == d.name && m.member == ctx.sessionUser && m.isActive))).map
        (fun d => ⟨d.name, d.departmentName, false, true⟩)

/-- Result of `update_calendar_booking`. -/
structure CalResult where
  success : Bool
  message : String
deriving Repr, DecidableEq

/-- `frappe.db.get_value("User", u, "full_name") or u`. -/
def userFullNameOr (db : DB) (u : String) : String :=
  match db.users.lookup u with
  | some n => if n == "" then u else n
  | none => u

/-- Join the conflict messages of a failed availability result as
`"; ".join(conflict_reasons) if conflict_reasons else reason`. -/
def joinConflictReasons (availability : AvailabilityResult) : String :=
  let reasons := availability.conflicts.map (fun c => c.message)
  if reasons.isEmpty then availability.reason.getD ""
  else String.intercalate "; " reasons

/-- The reassignment loop of `update_calendar_booking`: replace the user of
the first row that is a primary host or matches the computed primary host,
else append a new primary-host row. -/
def calReplaceHost (primaryHost : Option String) (newHost : String) :
    List AssignedUser → List AssignedUser
  | [] => [{user := newHost, isPrimaryHost := true}]
  | au :: rest =>
    if au.isPrimaryHost || (match primaryHost with
        | some p => au.user == p
        | none => false) then
      {au with user := newHost} :: rest
    else au :: calReplaceHost primaryHost newHost rest

/-- `update_calendar_booking` (`page/mm_enhanced_calendar/api.py` lines
757-1006): drag-and-drop reschedule/reassign with strict permission checks.
Failures return `success=False` without mutating; browser-timezone handling
is identity in the minute model. -/
def update_calendar_booking (db : DB) (ctx : Ctx) (bookingId : String)
    (startDatetime endDatetime : Option Int) (newHost : Option String) :
    DB × CalResult :=
  let roleLevel := (getUserRoleLevel ctx).1
  match db.bookings.find? (fun b => b.name == bookingId) with
  | none => (db, ⟨false, "Booking not found"⟩)
  | some booking0 =>
    if finalizedStatuses.contains booking0.bookingStatus then
      (db, ⟨false, "Cannot modify a '" ++ booking0.bookingStatus ++
        "' booking. Only active bookings can be rescheduled, extended, or reassigned."⟩)
    else
      let department := booking0.meetingType.bind (fun mt =>
        (db.meetingTypes.find? (fun t => t.name == mt)).bind (fun t => t.department))
      let assignedUserIds := booking0.assignedUsers.map (fun au => au.user)
      let primaryHost : Option String :=
        match booking0.assignedUsers.find? (fun au => au.isPrimaryHost) with
        | some au => some au.user
        | none => assignedUserIds.head?
      let ledDeptNames := (getUserDepartments db ctx).filterMap
        (fun d => if d.isLeader then some d.name else none)
      let reassignStep : Except CalResult Booking :=
        match newHost with
        | none => Except.ok booking0
        | some nh =>
          if booking0.isInternal then
            Except.error ⟨false,
              "Team meetings cannot be reassigned. Only customer bookings can be reassigned."⟩
          else if roleLevel == "department_member" then
            Except.error ⟨false, "You don't have permission to reassign bookings"⟩
          else if roleLevel == "department_leader" &&
              !(match department with
                | some d => ledDeptNames.contains d
                | none => false) then
            Except.error ⟨false, "You can only reassign bookings in departments you lead"⟩
          else if !(match department with
              | some d => db.departmentMembers.any (fun m =>
                  m.parent == d && m.member == nh && m.isActive)
              | none => false) then
            Except.error ⟨false, "The selected user is not an active member of this department"⟩
          else
            let durationMinutes := booking0.endDatetime - booking0.startDatetime
            let scheduledDate := booking0.startDatetime.ediv 1440
            let scheduledTime := booking0.startDatetime.emod 1440
            let availability := check_member_availability db nh scheduledDate
              scheduledTime durationMinutes (some booking0.name)
            if !availability.available then
              Except.error ⟨false, "Cannot reassign: " ++ nh ++
                " is not available at this time. " ++ joinConflictReasons availability⟩
            else
              Except.ok {booking0 with
                assignedUsers := calReplaceHost primaryHost nh booking0.assignedUsers}
      match reassignStep with
      | Except.error r => (db, r)
      | Except.ok booking1 =>
        let rescheduleStep : Except CalResult Booking :=
          if startDatetime.isSome || endDatetime.isSome then
            if roleLevel == "department_member" &&
                !assignedUserIds.contains ctx.sessionUser then
              if booking1.isInternal then
                Except.error ⟨false,
                  "Only meeting hosts can reschedule team meetings. Participants cannot reschedule."⟩
              else
                Except.error ⟨false, "You can only reschedule your own bookings"⟩
            else if roleLevel == "department_leader" &&
                !(match department with
                  | some d => ledDeptNames.contains d
                  | none => false) &&
                !assignedUserIds.contains ctx.sessionUser then
              if booking1.isInternal then
                Except.error ⟨false,
                  "Only meeting hosts can reschedule team meetings. Participants cannot reschedule."⟩
              else
                Except.error ⟨false, "You can only reschedule bookings in departments you lead"⟩
            else if (match startDatetime with
                | some s => decide (s < ctx.now)
                | none => false) then
              Except.error ⟨false, "Cannot reschedule a meeting to a past date/time."⟩
            else
              let booking2 := {booking1 with
                startDatetime := startDatetime.getD booking1.startDatetime,
                endDatetime := endDatetime.getD booking1.endDatetime}
              let durationMinutes := booking2.endDatetime - booking2.startDatetime
              let scheduledDate := booking2.startDatetime.ediv 1440
              let scheduledTime := booking2.startDatetime.emod 1440
              let hostFailure := booking2.assignedUsers.findSome? (fun au =>
                let availability := check_member_availability db au.user scheduledDate
                  scheduledTime durationMinutes (some booking2.name)
                if !availability.available then
                  some (⟨false, "Cannot update booking: Host " ++
                    userFullNameOr db au.user ++ " is not available. " ++
                    joinConflictReasons availability⟩ : CalResult)
                else none)
              match hostFailure with
              | some r => Except.error r
              | none =>
                if booking2.isInternal then
                  let internalParticipants := booking2.participants.filter
                    (fun p => p.participantType == "Internal")
                  let participantFailure := internalParticipants.findSome? (fun p =>
                    if p.user == "" then none
                    else if (booking2.assignedUsers.map (fun au => au.user)).contains p.user then
                      none
                    else
                      let availability := check_member_availability db p.user scheduledDate
                        scheduledTime durationMinutes (some booking2.name)
                      if !availability.available then
                        some (⟨false, "Cannot update team meeting: Participant " ++
                          userFullNameOr db p.user ++ " is not available. " ++
                          joinConflictReasons availability⟩ : CalResult)
                      else none)
                  match participantFailure with
                  | some r => Except.error r
                  | none => Except.ok booking2
                else Except.ok booking2
          else Except.ok booking1
        match rescheduleStep with
        | Except.error r => (db, r)
        | Except.ok bookingFinal =>
          ({db with bookings := replaceBooking db.bookings bookingFinal},
            ⟨true, "Booking updated successfully"⟩)

/-! ### Customer identity resolution (`services/customer_service.py`) and the
`MM Customer` validation hooks (`doctype/mm_customer/mm_customer.py`) -/

/-- `MM Customer Email` child row. -/
structure EmailRow where
  emailAddress : String
  emailType : String
  isPrimary : Bool
deriving Repr, DecidableEq

/-- `MM Customer Phone` child row. -/
structure PhoneRow where
  phoneNumber : String
  phoneType : String
  isPrimary : Bool
deriving Repr, DecidableEq

/-- `MM Customer` document. -/
structure Customer where
  name : String
  customerName : String
  primaryEmail : String
  emailAddresses : List EmailRow
  phoneNumbers : List PhoneRow
  isActive : Bool
deriving Repr, DecidableEq

/-- The characters Python's `\s` class matches (used by
`re.sub(r'[\s\-\(\)\+]', '', phone)` on the query phone). -/
def pyWhitespace : List Char := [' ', '\t', '\n', '\r', '\x0b', '\x0c']

/-- Python `str.lower()` restricted to ASCII (also SQL `LOWER`). -/
def strLower (s : String) : String :=
  String.mk (s.toList.map Char.toLower)

/-- Python `str.strip()`: drop leading and trailing whitespace. -/
def pyStrip (s : String) : String :=
  String.mk (((s.toList.dropWhile (fun c => pyWhitespace.contains c)).reverse.dropWhile
    (fun c => pyWhitespace.contains c)).reverse)

/-- Split a character list on a separator character
(Python `str.split(sep)` for a one-character separator). -/
def splitCharAux (c : Char) (acc : List Char) : List Char → List (List Char)
  | [] => [acc.reverse]
  | x :: xs =>
    if x == c then acc.reverse :: splitCharAux c [] xs
    else splitCharAux c (x :: acc) xs

/-- Split a string on a separator character. -/
def splitChar (c : Char) (s : String) : List (List Char) :=
  splitCharAux c [] s.toList

/-- Normalization of the caller-supplied phone:
`re.sub(r'[\s\-\(\)\+]', '', phone)`. -/
def stripPhoneQuery (p : String) : String :=
  String.mk (p.toList.filter (fun c =>
    !(pyWhitespace.contains c || c == '-' || c == '(' || c == ')' || c == '+')))

/-- Normalization of the stored phone column: the nested SQL `REPLACE` chain
removing space, hyphen, parentheses and plus. -/
def stripPhoneStored (p : String) : String :=
  String.mk (p.toList.filter (fun c =>
    !(c == ' ' || c == '-' || c == '(' || c == ')' || c == '+')))

/-- Modelled from the spec: the phone normalization as §4.11 words it,
"all non-digit characters except a sign are stripped before comparison"
(the `+` sign is kept).  Used only to compare the spec's description with
the code's normalization. -/
def specNormalizePhone (p : String) : String :=
  String.mk (p.toList.filter (fun c => c.isDigit || c == '+'))

/-- Python `str.title()` restricted to ASCII letters: uppercase a letter at
a word start (after a non-letter), lowercase the rest. -/
def pyTitle (s : String) : String :=
  String.mk (s.toList.foldl
    (fun (acc : List Char × Bool) ch =>
      let c := if ch.isAlpha then (if acc.2 then ch.toLower else ch.toUpper) else ch
      (acc.1 ++ [c], ch.isAlpha))
    ([], false)).1

/-- The fallback customer name seeded from the email:
`email.split('@')[0].replace('.', ' ').title()`. -/
def defaultCustomerName (email : String) : String :=
  pyTitle (String.mk (((splitChar '@' email).headD []).map
    (fun c => if c == '.' then ' ' else c)))

/-- Result of `find_or_create_customer`: the updated customer table, the
resolved customer id, and the `created` flag. -/
structure FindOrCreateResult where
  customers : List Customer
  customerId : String
  created : Bool
deriving Repr, DecidableEq

/-- `find_or_create_customer` (`services/customer_service.py` lines 15-131):
primary email, then secondary email rows, then (if a phone was supplied)
normalized phone rows -- a phone hit attaches the email -- else create.
The `LIKE` primary-email filter is modelled as case-insensitive equality,
document save hooks as direct writes, and the framework's autoname as a
table-length-based id. -/
def find_or_create_customer (customers : List Customer) (email : String)
    (phone : Option String) (name : Option String) :
    Except String FindOrCreateResult :=
  if email == "" then
    Except.error "Email is required to find or create a customer."
  else
    let e := strLower (pyStrip email)
    match customers.find? (fun c => strLower c.primaryEmail == e) with
    | some c => Except.ok ⟨customers, c.name, false⟩
    | none =>
      match customers.find? (fun c =>
          c.emailAddresses.any (fun r => strLower r.emailAddress == e)) with
      | some c => Except.ok ⟨customers, c.name, false⟩
      | none =>
        let phoneHit : Option Customer :=
          match phone with
          | none => none
          | some p =>
            if p == "" then none
            else customers.find? (fun c => c.phoneNumbers.any (fun r =>
              stripPhoneStored r.phoneNumber == stripPhoneQuery p))
        match phoneHit with
        | some c =>
          let c' := {c with emailAddresses :=
            c.emailAddresses ++ [⟨e, "Personal", false⟩]}
          Except.ok ⟨customers.map (fun x => if x.name == c.name then c' else x),
            c.name, false⟩
        | none =>
          let customerName :=
            match name with
            | some n => if n == "" then defaultCustomerName e else pyStrip n
            | none => defaultCustomerName e
          let newId := "MM-CUST-" ++ toString (customers.length + 1)
          let cust : Customer :=
            {name := newId
             customerName := customerName
             primaryEmail := e
             emailAddresses := [⟨e, "Primary", true⟩]
             phoneNumbers :=
               match phone with
               | some p => if p == "" then [] else [⟨p, "Mobile", true⟩]
               | none => []
             isActive := true}
          Except.ok ⟨customers ++ [cust], newId, true⟩

/-- Modelled from the spec: `find_or_create_customer` as §4.11 describes it,
differing from the code only in using the spec's phone normalization
(`specNormalizePhone` on both sides) for the phone lookup.  Used to compare
the spec's description of the lookup with the code. -/
def findOrCreateCustomerSpec (customers : List Customer) (email : String)
    (phone : Option String) (name : Option String) :
    Except String FindOrCreateResult :=
  if email == "" then
    Except.error "Email is required to find or create a customer."
  else
    let e := strLower (pyStrip email)
    match customers.find? (fun c => strLower c.primaryEmail == e) with
    | some c => Except.ok ⟨customers, c.name, false⟩
    | none =>
      match customers.find? (fun c =>
          c.emailAddresses.any (fun r => strLower r.emailAddress == e)) with
      | some c => Except.ok ⟨customers, c.name, false⟩
      | none =>
        let phoneHit : Option Customer :=
          match phone with
          | none => none
          | some p =>
            if p == "" then none
            else customers.find? (fun c => c.phoneNumbers.any (fun r =>
              specNormalizePhone r.phoneNumber == specNormalizePhone p))
        match phoneHit with
        | some c =>
          let c' := {c with emailAddresses :=
            c.emailAddresses ++ [⟨e, "Personal", false⟩]}
          Except.ok ⟨customers.map (fun x => if x.name == c.name then c' else x),
            c.name, false⟩
        | none =>
          let customerName :=
            match name with
            | some n => if n == "" then defaultCustomerName e else pyStrip n
            | none => defaultCustomerName e
          let newId := "MM-CUST-" ++ toString (customers.length + 1)
          let cust : Customer :=
            {name := newId
             customerName := customerName
             primaryEmail := e
             emailAddresses := [⟨e, "Primary", true⟩]
             phoneNumbers :=
               match phone with
               | some p => if p == "" then [] else [⟨p, "Mobile", true⟩]
               | none => []
             isActive := true}
          Except.ok ⟨customers ++ [cust], newId, true⟩

/-- Characters allowed in the local part of
`^[a-zA-Z0-9._%+-]+@[a-zA-Z0-9.-]+\.[a-zA-Z]{2,}$`. -/
def isLocalChar (c : Char) : Bool :=
  c.isAlphanum || c == '.' || c == '_' || c == '%' || c == '+' || c == '-'

/-- Characters allowed in the domain part before the final dot. -/
def isDomainChar (c : Char) : Bool :=
  c.isAlphanum || c == '.' || c == '-'

/-- The email-format regex of `validate_primary_email`, decided directly:
nonempty local part, one `@`, a domain with a final alphabetic label of
length at least 2. -/
def emailFormatOk (s : String) : Bool :=
  match splitChar '@' s with
  | [loc, dom] =>
    !loc.isEmpty && loc.all isLocalChar &&
    (let segs := splitCharAux '.' [] dom
     decide (segs.length ≥ 2) &&
     (let tld := segs.getLastD []
      decide (tld.length ≥ 2) && tld.all Char.isAlpha &&
      (let pre := List.intercalate ['.'] segs.dropLast
       !pre.isEmpty && pre.all isDomainChar)))
  | _ => false

/-- `MMCustomer.validate_customer_name`. -/
def validateCustomerName (c : Customer) : Except String Customer :=
  if pyStrip c.customerName == "" then Except.error "Customer Name is required."
  else Except.ok {c with customerName := pyStrip c.customerName}

/-- `MMCustomer.validate_primary_email`. -/
def validatePrimaryEmail (c : Customer) : Except String Customer :=
  if c.primaryEmail == "" then Except.error "Primary Email is required."
  else if !emailFormatOk c.primaryEmail then
    Except.error ("Invalid email format for Primary Email: '" ++ c.primaryEmail ++ "'")
  else Except.ok c

/-- `MMCustomer.validate_primary_email_unique` against the other customers. -/
def validatePrimaryEmailUnique (others : List Customer) (c : Customer) :
    Except String Customer :=
  if c.primaryEmail == "" then Except.ok c
  else
    let e := strLower c.primaryEmail
    match others.find? (fun o => strLower o.primaryEmail == e && o.name != c.name) with
    | some o => Except.error ("Primary email '" ++ c.primaryEmail ++
        "' is already used by customer '" ++ o.customerName ++ "' (" ++ o.name ++
        "). Each email can only belong to one customer.")
    | none =>
      match others.find? (fun o => o.name != c.name &&
          o.emailAddresses.any (fun r => strLower r.emailAddress == e)) with
      | some o => Except.error ("Primary email '" ++ c.primaryEmail ++
          "' is already associated with customer '" ++ o.customerName ++ "' (" ++
          o.name ++ "). Each email can only belong to one customer.")
      | none => Except.ok c

/-- The seen-set loop of `validate_email_addresses`: the first duplicated
(lowercased) address, if any. -/
def findDuplicateEmail (seen : List String) : List EmailRow → Option String
  | [] => none
  | r :: rs =>
    if seen.contains (strLower r.emailAddress) then some r.emailAddress
    else findDuplicateEmail (strLower r.emailAddress :: seen) rs

/-- `MMCustomer.validate_email_addresses`. -/
def validateEmailAddresses (c : Customer) : Except String Customer :=
  if c.emailAddresses.isEmpty then Except.ok c
  else
    match findDuplicateEmail [] c.emailAddresses with
    | some dup => Except.error ("Duplicate email address found: '" ++ dup ++ "'")
    | none => Except.ok c

/-- `MMCustomer.validate_emails_unique_across_customers`. -/
def validateEmailsUniqueAcross (others : List Customer) (c : Customer) :
    Except String Customer :=
  match c.emailAddresses.findSome? (fun r =>
      if r.emailAddress == "" then none
      else
        let e := strLower r.emailAddress
        match others.find? (fun o => o.name != c.name &&
            o.emailAddresses.any (fun q => strLower q.emailAddress == e)) with
        | some o => some ("Email '" ++ r.emailAddress ++
            "' is already associated with customer '" ++ o.customerName ++ "' (" ++
            o.name ++ "). Each email can only belong to one customer.")
        | none =>
          match others.find? (fun o =>
              strLower o.primaryEmail == e && o.name != c.name) with
          | some o => some ("Email '" ++ r.emailAddress ++
              "' is already the primary email of customer '" ++ o.customerName ++
              "' (" ++ o.name ++ "). Each email can only belong to one customer.")
          | none => none) with
  | some msg => Except.error msg
  | none => Except.ok c

/-- The seen-set loop of `validate_phone_numbers` over normalized phones. -/
def findDuplicatePhone (seen : List String) : List PhoneRow → Option String
  | [] => none
  | r :: rs =>
    if seen.contains (stripPhoneQuery r.phoneNumber) then some r.phoneNumber
    else findDuplicatePhone (stripPhoneQuery r.phoneNumber :: seen) rs

/-- `MMCustomer.validate_phone_numbers`. -/
def validatePhoneNumbers (c : Customer) : Except String Customer :=
  if c.phoneNumbers.isEmpty then Except.ok c
  else
    match findDuplicatePhone [] c.phoneNumbers with
    | some dup => Except.error ("Duplicate phone number found: '" ++ dup ++ "'")
    | none => Except.ok c

/-- `MMCustomer.validate_phones_unique_across_customers`. -/
def validatePhonesUniqueAcross (others : List Customer) (c : Customer) :
    Except String Customer :=
  match c.phoneNumbers.findSome? (fun r =>
      if r.phoneNumber == "" then none
      else
        let pd := stripPhoneQuery r.phoneNumber
        match others.find? (fun o => o.name != c.name &&
            o.phoneNumbers.any (fun q => stripPhoneStored q.phoneNumber == pd)) with
        | some o => some ("Phone number '" ++ r.phoneNumber ++
            "' is already associated with customer '" ++ o.customerName ++ "' (" ++
            o.name ++ "). Each phone number can only belong to one customer.")
        | none => none) with
  | some msg => Except.error msg
  | none => Except.ok c

/-- `MMCustomer.ensure_primary_email_in_list` (`mm_customer.py` lines
176-197): append the primary email (flagged primary) when the list is empty
or does not contain it case-insensitively. -/
def ensurePrimaryEmailInList (c : Customer) : Customer :=
  if c.emailAddresses.isEmpty then
    {c with emailAddresses := [⟨c.primaryEmail, "Primary", true⟩]}
  else if c.emailAddresses.any (fun r =>
      strLower r.emailAddress == strLower c.primaryEmail) then c
  else
    {c with emailAddresses := c.emailAddresses ++ [⟨c.primaryEmail, "Primary", true⟩]}

/-- The demotion loop of `ensure_single_primary_email`: keep the first
flagged row, unset every later flag. -/
def demoteExtraPrimaryEmails (foundPrimary : Bool) : List EmailRow → List EmailRow
  | [] => []
  | r :: rs =>
    if r.isPrimary then
      if foundPrimary then {r with isPrimary := false} :: demoteExtraPrimaryEmails true rs
      else r :: demoteExtraPrimaryEmails true rs
    else r :: demoteExtraPrimaryEmails foundPrimary rs

/-- Number of rows flagged `is_primary`. -/
def countPrimaryEmails (rows : List EmailRow) : Nat :=
  (rows.filter (fun r => r.isPrimary)).length

/-- `MMCustomer.ensure_single_primary_email` (`mm_customer.py` lines
199-217): promote the first row when none is flagged, demote all but the
first when several are. -/
def ensureSinglePrimaryEmail (c : Customer) : Customer :=
  if c.emailAddresses.isEmpty then c
  else
    let cnt := countPrimaryEmails c.emailAddresses
    if cnt == 0 then
      {c with emailAddresses :=
        match c.emailAddresses with
        | [] => []
        | r :: rs => {r with isPrimary := true} :: rs}
    else if cnt > 1 then
      {c with emailAddresses := demoteExtraPrimaryEmails false c.emailAddresses}
    else c

/-- The demotion loop of `ensure_single_primary_phone`. -/
def demoteExtraPrimaryPhones (foundPrimary : Bool) : List PhoneRow → List PhoneRow
  | [] => []
  | r :: rs =>
    if r.isPrimary then
      if foundPrimary then {r with isPrimary := false} :: demoteExtraPrimaryPhones true rs
      else r :: demoteExtraPrimaryPhones true rs
    else r :: demoteExtraPrimaryPhones foundPrimary rs

/-- `MMCustomer.ensure_single_primary_phone` (`mm_customer.py` lines 219-237). -/
def ensureSinglePrimaryPhone (c : Customer) : Customer :=
  if c.phoneNumbers.isEmpty then c
  else
    let cnt := (c.phoneNumbers.filter (fun r => r.isPrimary)).length
    if cnt == 0 then
      {c with phoneNumbers :=
        match c.phoneNumbers with
        | [] => []
        | r :: rs => {r with isPrimary := true} :: rs}
    else if cnt > 1 then
      {c with phoneNumbers := demoteExtraPrimaryPhones false c.phoneNumbers}
    else c

/-- `MMCustomer.validate` (`mm_customer.py` lines 10-21): the validation
pipeline run on every save, against the other customers `others`. -/
def mmCustomerValidate (others : List Customer) (c : Customer) :
    Except String Customer := do
  let c ← validateCustomerName c
  let c ← validatePrimaryEmail c
  let c ← validatePrimaryEmailUnique others c
  let c ← validateEmailAddresses c
  let c ← validateEmailsUniqueAcross others c
  let c ← validatePhoneNumbers c
  let c ← validatePhonesUniqueAcross others c
  let c := ensurePrimaryEmailInList c
  let c := ensureSinglePrimaryEmail c
  let c := ensureSinglePrimaryPhone c
  return c

/-! ### Concrete fixtures used by witnesses and counterexamples -/

/-- An empty database. -/
def emptyDB : DB :=
  { blockedSlots := []
    userSettings := []
    availabilityRules := []
    dateOverrides := []
    bookings := []
    calendarEvents := []
    calendarIntegrations := []
    departments := []
    departmentMembers := []
    meetingTypes := []
    users := [] }

/-- Build a booking with empty history and no customer metadata. -/
def mkBooking (nm st : String) (s e dur : Int) (internal : Bool)
    (aus : List AssignedUser) (ps : List Participant) : Booking :=
  { name := nm
    bookingStatus := st
    status := st
    startDatetime := s
    endDatetime := e
    duration := dur
    isInternal := internal
    meetingType := none
    department := none
    assignedUsers := aus
    participants := ps }

/-- Fixture for the override-replaces-working-hours scenario: alice works
Monday 09:00-17:00, and a Monday (day 0) override opens 18:00-20:00. -/
def overrideScenarioDB : DB :=
  { emptyDB with
    userSettings := [⟨"alice", WHJson.valid [("monday", ⟨true, 540, 1020⟩)]⟩]
    availabilityRules := [⟨"RULE-1", "alice", true, 0, 0, 0, 0⟩]
    dateOverrides := [⟨"RULE-1", 0, true, some 1080, some 1200, none⟩] }

/-- Fixture with one blocked slot 10:00-11:00 for alice on day 0. -/
def blockedScenarioDB : DB :=
  { overrideScenarioDB with
    blockedSlots := [⟨"alice", 0, 600, 660, some "Dentist"⟩] }

/-- Fixture for the buffer boundary: a default rule with
`buffer_time_before = 15` and one prior active booking `[bs, be)` hosted by
the member. -/
def bufferScenarioDB (m bn : String) (bs be aft : Int) : DB :=
  { emptyDB with
    availabilityRules := [⟨"BUF-RULE", m, true, 15, aft, 0, 0⟩]
    bookings := [mkBooking bn "Confirmed" bs be (be - bs) false [⟨m, true, none⟩] []] }

/-- Fixture for the quota boundary: `max_bookings_per_day = 2` and two
active bookings on day 3 (one as host, one as internal participant). -/
def quotaScenarioDB : DB :=
  { emptyDB with
    availabilityRules := [⟨"RULE-1", "alice", true, 0, 0, 2, 0⟩]
    bookings := [
      mkBooking "B1" "Confirmed" (1440 * 3 + 540) (1440 * 3 + 600) 60 false
        [⟨"alice", true, none⟩] [],
      mkBooking "B2" "Pending" (1440 * 3 + 700) (1440 * 3 + 760) 60 false
        [] [⟨"alice", "Internal"⟩]] }

/-- A System Manager request context. -/
def adminCtx : Ctx := ⟨"admin@x.com", ["System Manager"], 1440 * 5, 5⟩

/-- Fixture with one active internal (team) booking hosted by carol. -/
def teamBookingDB : DB :=
  { emptyDB with
    bookings := [mkBooking "BKG-5" "Confirmed" (1440 * 10 + 600) (1440 * 10 + 660) 60 true
      [⟨"carol", true, none⟩] []]
    users := [("carol", "Carol C"), ("dave", "Dave D")] }

/-- Fixture with one cancelled (finalized) booking. -/
def cancelledBookingDB : DB :=
  { emptyDB with
    bookings := [mkBooking "BKG-4" "Cancelled" (1440 * 10 + 600) (1440 * 10 + 660) 60 false
      [⟨"carol", true, none⟩] []] }

/-- Customer fixture: one existing customer whose only phone is "+123". -/
def phoneCustomerDB : List Customer :=
  [{name := "CUST-0001"
    customerName := "Pat"
    primaryEmail := "pat@example.com"
    emailAddresses := [⟨"pat@example.com", "Primary", true⟩]
    phoneNumbers := [⟨"+123", "Mobile", true⟩]
    isActive := true}]

/-! ### Helper lemmas -/

/-- The checkers other than `check_working_hours` never read
`MM User Settings`. -/
theorem checkBlockedSlots_settings (db : DB) (us : List UserSettings)
    (m : String) (d st et : Int) :
    checkBlockedSlots {db with userSettings := us} m d st et =
      checkBlockedSlots db m d st et := rfl

theorem checkDateOverrides_settings (db : DB) (us : List UserSettings)
    (m : String) (d st et : Int) :
    checkDateOverrides {db with userSettings := us} m d st et =
      checkDateOverrides db m d st et := rfl

theorem checkBookingConflicts_settings (db : DB) (us : List UserSettings)
    (m : String) (d st et : Int) (excl : Option String) :
    checkBookingConflicts {db with userSettings := us} m d st et excl =
      checkBookingConflicts db m d st et excl := rfl

theorem checkCalendarEventConflicts_settings (db : DB) (us : List UserSettings)
    (m : String) (s e : Int) :
    checkCalendarEventConflicts {db with userSettings := us} m s e =
      checkCalendarEventConflicts db m s e := rfl

theorem checkBufferTimeConflicts_settings (db : DB) (us : List UserSettings)
    (m : String) (s e : Int) (excl : Option String) :
    checkBufferTimeConflicts {db with userSettings := us} m s e excl =
      checkBufferTimeConflicts db m s e excl := rfl

theorem checkAvailabilityRules_settings (db : DB) (us : List UserSettings)
    (m : String) (d : Int) :
    checkAvailabilityRules {db with userSettings := us} m d =
      checkAvailabilityRules db m d := rfl

/-- When a date override exists for the date, the orchestrator's result does
not depend on the `MM User Settings` table at all. -/
theorem cma_settings_congr (db : DB) (us : List UserSettings) (m : String)
    (d st dur : Int) (excl : Option String)
    (h : (checkDateOverrides db m d st (candidateEndTime d st dur)).hasOverride = true) :
    check_member_availability {db with userSettings := us} m d st dur excl =
      check_member_availability db m d st dur excl := by
  unfold candidateEndTime at h
  simp only [check_member_availability, checkBlockedSlots_settings,
    checkDateOverrides_settings, checkBookingConflicts_settings,
    checkCalendarEventConflicts_settings, checkBufferTimeConflicts_settings,
    checkAvailabilityRules_settings, h, if_true]

/-! ### Claims -/

/-- C8: for every member with no working-hours schedule configured at all
(no settings row or an empty field) and for every member whose stored
working-hours JSON fails to parse, `check_working_hours` returns available
for every date and candidate interval, without raising an error. -/
theorem c8_working_hours_fallback (db : DB) (m : String) (d st et : Int)
    (h : match db.userSettings.find? (fun u => u.user == m) with
         | none => True
         | some s => s.workingHours = WHJson.missing ∨ s.workingHours = WHJson.invalid) :
    checkWorkingHours db m d st et = ⟨true, none⟩ := by
  unfold checkWorkingHours
  cases hf : db.userSettings.find? (fun u => u.user == m) with
  | none => rfl
  | some s =>
    rw [hf] at h
    rcases h with h | h <;> simp [h]

/-- Witness for C8: a member with no settings row, and one with invalid
JSON, are both reported available. -/
theorem c8_witness :
    checkWorkingHours emptyDB "alice" 0 540 600 = ⟨true, none⟩ ∧
    checkWorkingHours {emptyDB with userSettings := [⟨"bob", WHJson.invalid⟩]}
      "bob" 0 540 600 = ⟨true, none⟩ := by
  refine ⟨c8_working_hours_fallback emptyDB "alice" 0 540 600 ?_,
    c8_working_hours_fallback {emptyDB with userSettings := [⟨"bob", WHJson.invalid⟩]}
      "bob" 0 540 600 ?_⟩
  · simp [emptyDB]
  · simp [emptyDB]

/-- C3: if any override row collected for the member/date has
`available=False`, `check_date_overrides` reports the whole date blocked
with that row's reason (default "Member is not available on this date"),
regardless of the other rows. -/
theorem c3_any_unavailable_blocks_date (db : DB) (m : String) (d st et : Int)
    (o : DateOverride)
    (h : (collectDateOverrides db.availabilityRules db.dateOverrides m d).find?
        (fun x => !x.available) = some o) :
    checkDateOverrides db m d st et =
      ⟨false, some (o.reason.getD "Member is not available on this date"), true⟩ := by
  have hmem := List.mem_of_find?_eq_some h
  have hne : collectDateOverrides db.availabilityRules db.dateOverrides m d ≠ [] :=
    List.ne_nil_of_mem hmem
  have hrules : db.availabilityRules.filter (fun r => r.user == m) ≠ [] := by
    intro hc
    apply hne
    unfold collectDateOverrides
    rw [hc]
    rfl
  have h1 : (db.availabilityRules.filter (fun r => r.user == m)).isEmpty = false :=
    List.isEmpty_eq_false.mpr hrules
  have h2 : (collectDateOverrides db.availabilityRules db.dateOverrides m d).isEmpty = false :=
    List.isEmpty_eq_false.mpr hne
  simp only [checkDateOverrides, h1, h2, h, Bool.false_eq_true, if_false]

/-- Witness for C3: two rows for the same date, one available and one not;
the date is reported blocked with the unavailable row's reason. -/
theorem c3_witness :
    (collectDateOverrides
        [⟨"RULE-1", "alice", true, 0, 0, 0, 0⟩]
        [⟨"RULE-1", 7, true, some 540, some 720, none⟩,
         ⟨"RULE-1", 7, false, none, none, some "Vacation"⟩]
        "alice" 7).find? (fun x => !x.available) =
      some ⟨"RULE-1", 7, false, none, none, some "Vacation"⟩ ∧
    checkDateOverrides
      { emptyDB with
        availabilityRules := [⟨"RULE-1", "alice", true, 0, 0, 0, 0⟩]
        dateOverrides := [⟨"RULE-1", 7, true, some 540, some 720, none⟩,
          ⟨"RULE-1", 7, false, none, none, some "Vacation"⟩] }
      "alice" 7 600 660 = ⟨false, some "Vacation", true⟩ := by
  constructor
  · rfl
  · exact c3_any_unavailable_blocks_date _ "alice" 7 600 660
      ⟨"RULE-1", 7, false, none, none, some "Vacation"⟩ rfl

/-- C1: when the blocked-slot check finds an overlapping blocked slot,
`check_member_availability` returns unavailable with the blocked-slot
conflict as the sole entry of `conflicts` and its message as the reason; no
later checker contributes anything. -/
theorem c1_blocked_slot_short_circuits (db : DB) (m : String)
    (d st dur : Int) (excl : Option String)
    (hb : (checkBlockedSlots db m d st (candidateEndTime d st dur)).available = false) :
    check_member_availability db m d st dur excl =
      ⟨false,
       [⟨"blocked_slot",
         (checkBlockedSlots db m d st (candidateEndTime d st dur)).reason.getD "",
         none, none⟩],
       some ((checkBlockedSlots db m d st (candidateEndTime d st dur)).reason.getD "")⟩ := by
  unfold candidateEndTime at hb ⊢
  simp [check_member_availability, hb]

/-- Witness for C1: a blocked slot 10:00-11:00 overlapping a 10:30 request,
together with an unavailable date override for the same date, yields exactly
the blocked-slot conflict. -/
theorem c1_witness :
    (checkBlockedSlots blockedScenarioDB "alice" 0 630 (candidateEndTime 0 630 30)).available
      = false ∧
    check_member_availability blockedScenarioDB "alice" 0 630 30 none =
      ⟨false,
       [⟨"blocked_slot", "Blocked: Dentist (10:00 - 11:00)", none, none⟩],
       some "Blocked: Dentist (10:00 - 11:00)"⟩ := by
  refine ⟨rfl, ?_⟩
  have h := c1_blocked_slot_short_circuits blockedScenarioDB "alice" 0 630 30 none rfl
  rw [h]
  rfl

/-- C2: when a date override exists for the date, the orchestrator's verdict
is independent of the recurring working-hours schedule; concretely, with
working hours Monday 09:00-17:00 and a Monday override opening 18:00-20:00,
a one-hour 18:30 request is available even though the working-hours check
alone would reject it. -/
theorem c2_override_replaces_working_hours :
    (∀ (db : DB) (us1 us2 : List UserSettings) (m : String) (d st dur : Int)
       (excl : Option String),
      (checkDateOverrides db m d st (candidateEndTime d st dur)).hasOverride = true →
      check_member_availability {db with userSettings := us1} m d st dur excl =
        check_member_availability {db with userSettings := us2} m d st dur excl) ∧
    check_member_availability overrideScenarioDB "alice" 0 1110 60 none =
      ⟨true, [], none⟩ ∧
    (checkWorkingHours overrideScenarioDB "alice" 0 1110 1170).available = false := by
  refine ⟨?_, rfl, rfl⟩
  intro db us1 us2 m d st dur excl h
  exact (cma_settings_congr db us1 m d st dur excl h).trans
    (cma_settings_congr db us2 m d st dur excl h).symm

/-- Witness for C2: the override fixture has an override on day 0, and the
orchestrator's result there is the same under two different working-hours
tables. -/
theorem c2_witness :
    (checkDateOverrides overrideScenarioDB "alice" 0 1110
        (candidateEndTime 0 1110 60)).hasOverride = true ∧
    check_member_availability {overrideScenarioDB with userSettings := []}
        "alice" 0 1110 60 none =
      check_member_availability
        {overrideScenarioDB with
          userSettings := [⟨"alice", WHJson.valid [("monday", ⟨false, 0, 0⟩)]⟩]}
        "alice" 0 1110 60 none := by
  refine ⟨rfl, ?_⟩
  exact c2_override_replaces_working_hours.1 overrideScenarioDB []
    [⟨"alice", WHJson.valid [("monday", ⟨false, 0, 0⟩)]⟩] "alice" 0 1110 60 none rfl

/-- C6: with `buffer_time_before = 15` on the member's default rule and a
prior same-day active booking ending at `be`, a candidate slot starting at
`be + 15` yields no buffer conflict, while one starting at `be + 14` yields
the before-side buffer violation (the expanded window being half-open). -/
theorem c6_buffer_boundary (m bn : String) (bs be dur aft : Int)
    (h1 : bs < be) (h2 : bs.ediv 1440 = (be + 14).ediv 1440)
    (h3 : 0 ≤ dur) (h4 : 0 ≤ aft) :
    checkBufferTimeConflicts (bufferScenarioDB m bn bs be aft) m
        (be + 15) (be + 15 + dur) none = [] ∧
    checkBufferTimeConflicts (bufferScenarioDB m bn bs be aft) m
        (be + 14) (be + 14 + dur) none =
      ["Violates " ++ toString (15 : Int) ++
        "-minute buffer before meeting (conflicts with " ++ bn ++ ")"] := by
  constructor
  · have f1 : (decide (bs ≥ be + 15 - 15)) = false := decide_eq_false (by omega)
    have f2 : (decide (be > be + 15 - 15)) = false := decide_eq_false (by omega)
    simp [checkBufferTimeConflicts, bufferScenarioDB, emptyDB, mkBooking, pickRule,
      isHost, isActiveStatus, isInternalParticipant, notExcluded, f1, f2]
  · have g1 : (decide (bs.ediv 1440 = (be + 14).ediv 1440)) = true := decide_eq_true h2
    have g2 : (decide (be > be + 14 - 15)) = true := decide_eq_true (by omega)
    have g3 : (decide (be ≤ be + 14 + dur + aft)) = true := decide_eq_true (by omega)
    have g4 : (decide (be ≤ be + 14 - 15)) = false := decide_eq_false (by omega)
    have g5 : (decide (bs ≥ be + 14 + dur + aft)) = false := decide_eq_false (by omega)
    have g6 : (decide (be ≤ be + 14)) = true := decide_eq_true (by omega)
    have p1 : be + 14 - 15 < be := by omega
    have p2 : bs < be + 14 + dur + aft := by omega
    have p3 : be ≤ be + 14 := by omega
    simp [checkBufferTimeConflicts, bufferScenarioDB, emptyDB, mkBooking, pickRule,
      isHost, isActiveStatus, isInternalParticipant, notExcluded,
      g1, g2, g3, g4, g5, g6, p1, p2, p3]

/-- Witness for C6: booking 09:00-10:00, candidate 10:15 accepted and 10:14
rejected with the before-side message. -/
theorem c6_witness :
    (540 : Int) < 600 ∧ (540 : Int).ediv 1440 = ((600 : Int) + 14).ediv 1440 ∧
    checkBufferTimeConflicts (bufferScenarioDB "bob" "BKG-1" 540 600 0) "bob"
        (600 + 15) (600 + 15 + 30) none = [] ∧
    checkBufferTimeConflicts (bufferScenarioDB "bob" "BKG-1" 540 600 0) "bob"
        (600 + 14) (600 + 14 + 30) none =
      ["Violates " ++ toString (15 : Int) ++
        "-minute buffer before meeting (conflicts with " ++ "BKG-1" ++ ")"] := by
  have h := c6_buffer_boundary "bob" "BKG-1" 540 600 30 0 (by decide) (by decide)
    (by decide) (by decide)
  exact ⟨by decide, by decide, h.1, h.2⟩

/-- C7: with `max_bookings_per_day = 2` on the picked rule (and no weekly
limit), a date already carrying 2 distinct active bookings is rejected with
the per-day-limit message, a date with fewer than 2 is not rejected, and
absent limits (NULL/0, or no rule at all) mean unlimited. -/
theorem c7_daily_quota_boundary (db : DB) (m : String) (d d2 : Int)
    (r : AvailabilityRule)
    (hr : pickRule (db.availabilityRules.filter (fun a => a.user == m)) = some r)
    (hday : r.maxPerDay = 2) (hweek : r.maxPerWeek = 0) :
    (quotaDayCount db m d = 2 →
      checkAvailabilityRules db m d =
        ⟨false, some "Member has reached maximum bookings per day (2)"⟩) ∧
    (quotaDayCount db m d2 < 2 → checkAvailabilityRules db m d2 = ⟨true, none⟩) ∧
    (∀ (db2 : DB) (m2 : String) (d3 : Int),
      (match pickRule (db2.availabilityRules.filter (fun a => a.user == m2)) with
       | none => True
       | some r2 => r2.maxPerDay = 0 ∧ r2.maxPerWeek = 0) →
      checkAvailabilityRules db2 m2 d3 = ⟨true, none⟩) := by
  refine ⟨?_, ?_, ?_⟩
  · intro hc
    simp only [checkAvailabilityRules, hr, hday, hc]
    norm_num
    rfl
  · intro hc
    have e1 : (decide ((quotaDayCount db m d2 : Int) ≥ r.maxPerDay)) = false :=
      decide_eq_false (by rw [hday]; push_neg; exact_mod_cast hc)
    simp [checkAvailabilityRules, hr, e1, hweek]
  · intro db2 m2 d3 hz
    cases hp : pickRule (db2.availabilityRules.filter (fun a => a.user == m2)) with
    | none => simp [checkAvailabilityRules, hp]
    | some r2 =>
      rw [hp] at hz
      simp [checkAvailabilityRules, hp, hz.1, hz.2]

/-- Witness for C7: the quota fixture has 2 active bookings on day 3; a
request on day 3 is rejected by the daily limit and one on day 4 is not. -/
theorem c7_witness :
    pickRule (quotaScenarioDB.availabilityRules.filter (fun a => a.user == "alice")) =
      some ⟨"RULE-1", "alice", true, 0, 0, 2, 0⟩ ∧
    quotaDayCount quotaScenarioDB "alice" 3 = 2 ∧
    quotaDayCount quotaScenarioDB "alice" 4 = 0 ∧
    checkAvailabilityRules quotaScenarioDB "alice" 3 =
      ⟨false, some "Member has reached maximum bookings per day (2)"⟩ ∧
    checkAvailabilityRules quotaScenarioDB "alice" 4 = ⟨true, none⟩ := by
  have h := c7_daily_quota_boundary quotaScenarioDB "alice" 3 4
    ⟨"RULE-1", "alice", true, 0, 0, 2, 0⟩ rfl rfl rfl
  exact ⟨rfl, by decide, by decide, h.1 (by decide), h.2.1 (by decide)⟩

/-- C4 (amended): for a finalized booking and an authorized requester,
`reschedule_booking_internal` and `reassign_booking` both reject with an
error naming the current status (aborting before any mutation), but
`update_booking_status` performs no finalized-status check: given any valid
target status it succeeds and mutates the booking regardless of its
finalized `booking_status`. -/
theorem c4_finalized_mutations (db : DB) (ctx : Ctx) (id : String) (b : Booking)
    (nd nt : Int) (nh ns : String) (notes : Option String)
    (hfound : db.bookings.find? (fun x => x.name == id) = some b)
    (hperm : hasPermissionToManageBooking db ctx b = true)
    (hfin : finalizedStatuses.contains b.bookingStatus = true) :
    reschedule_booking_internal db ctx id nd nt =
      Except.error ("Cannot reschedule '" ++ b.bookingStatus ++ "' bookings") ∧
    reassign_booking db ctx id nh =
      Except.error ("Cannot reassign '" ++ b.bookingStatus ++ "' bookings") ∧
    (["Confirmed", "Cancelled", "Completed", "No-show"].contains ns = true →
      ∃ db2 res, update_booking_status db ctx id ns notes = Except.ok (db2, res) ∧
        res.success = true) := by
  have hmemb : b.bookingStatus ∈ finalizedStatuses := by simpa using hfin
  refine ⟨?_, ?_, ?_⟩
  · simp [reschedule_booking_internal, hfound, hperm, hfin, hmemb]
  · simp [reassign_booking, hfound, hperm, hfin, hmemb]
  · intro hvalid
    simp only [update_booking_status, hfound, hperm, Bool.not_true, hvalid,
      Bool.not_false, Bool.false_eq_true, if_false]
    exact ⟨_, _, rfl, rfl⟩

/-- Counterexample for C4: a booking whose `booking_status` is the finalized
"Cancelled" is nevertheless mutated by `update_booking_status` (to
"Completed"), contradicting the claim that the status-update operation
rejects finalized bookings. -/
theorem c4_counterexample :
    finalizedStatuses.contains "Cancelled" = true ∧
    (cancelledBookingDB.bookings.map (fun b => b.bookingStatus)) = ["Cancelled"] ∧
    (∃ x, update_booking_status cancelledBookingDB adminCtx "BKG-4" "Completed" none =
        Except.ok x ∧
      x.2.success = true ∧
      ((x.1.bookings.find? (fun b => b.name == "BKG-4")).map (fun b => b.status)) =
        some "Completed") := by
  exact ⟨rfl, rfl, ⟨_, rfl, rfl, rfl⟩⟩

/-- Witness for C4 (amended): on the cancelled-booking fixture, reschedule
and reassign fail naming the status while a status update succeeds. -/
theorem c4_witness :
    cancelledBookingDB.bookings.find? (fun x => x.name == "BKG-4") =
      some (mkBooking "BKG-4" "Cancelled" (1440 * 10 + 600) (1440 * 10 + 660) 60 false
        [⟨"carol", true, none⟩] []) ∧
    reschedule_booking_internal cancelledBookingDB adminCtx "BKG-4" 20 600 =
      Except.error "Cannot reschedule 'Cancelled' bookings" ∧
    reassign_booking cancelledBookingDB adminCtx "BKG-4" "dave" =
      Except.error "Cannot reassign 'Cancelled' bookings" := by
  have h := c4_finalized_mutations cancelledBookingDB adminCtx "BKG-4"
    (mkBooking "BKG-4" "Cancelled" (1440 * 10 + 600) (1440 * 10 + 660) 60 false
      [⟨"carol", true, none⟩] [])
    20 600 "dave" "Completed" none rfl rfl rfl
  exact ⟨rfl, h.1, h.2.1⟩

/-- C5 (amended): the calendar-page endpoint `update_calendar_booking`
rejects every reassignment of an internal (team) booking before any role or
availability check, leaving the store unchanged, for every requester
including a System Manager; but `reassign_booking` performs no
team-meeting check: an internal booking satisfying its other preconditions
is reassigned successfully. -/
theorem c5_team_meeting_reassignment (db : DB) (ctx : Ctx) (id nh : String)
    (b : Booking) (sdt edt : Option Int)
    (hfound : db.bookings.find? (fun x => x.name == id) = some b)
    (hfin : finalizedStatuses.contains b.bookingStatus = false)
    (hint : b.isInternal = true) :
    update_calendar_booking db ctx id sdt edt (some nh) =
      (db, ⟨false,
        "Team meetings cannot be reassigned. Only customer bookings can be reassigned."⟩) ∧
    (hasPermissionToManageBooking db ctx b = true →
      resolveDepartment db b = none →
      (check_member_availability db nh (b.startDatetime.ediv 1440)
        (b.startDatetime.emod 1440) b.duration (some b.name)).available = true →
      ∃ db2 res, reassign_booking db ctx id nh = Except.ok (db2, res) ∧
        res.success = true) := by
  have hnmemb : b.bookingStatus ∉ finalizedStatuses := by
    simpa using hfin
  constructor
  · simp [update_calendar_booking, hfound, hfin, hint, hnmemb]
  · intro hperm hdept havail
    simp only [reassign_booking, hfound, hperm, Bool.not_true, hfin, hdept, havail,
      Bool.not_false, Bool.false_eq_true, if_false, if_true]
    exact ⟨_, _, rfl, rfl⟩

/-- Counterexample for C5: a System Manager reassigns an internal (team)
booking through `reassign_booking` and it succeeds, replacing the host --
contradicting the claim that every reassignment of a team meeting fails
with a team-meeting-immutability error. -/
theorem c5_counterexample :
    ((teamBookingDB.bookings.find? (fun x => x.name == "BKG-5")).map
      (fun b => b.isInternal)) = some true ∧
    adminCtx.roles.contains "System Manager" = true ∧
    (∃ x, reassign_booking teamBookingDB adminCtx "BKG-5" "dave" = Except.ok x ∧
      x.2.success = true ∧
      ((x.1.bookings.find? (fun b => b.name == "BKG-5")).map
        (fun b => b.assignedUsers.map (fun au => au.user))) = some ["dave"]) := by
  exact ⟨rfl, rfl, ⟨_, rfl, rfl, rfl⟩⟩

/-- Witness for C5 (amended): on the team-booking fixture the calendar
endpoint rejects the reassignment and `reassign_booking` accepts it. -/
theorem c5_witness :
    update_calendar_booking teamBookingDB adminCtx "BKG-5" none none (some "dave") =
      (teamBookingDB, ⟨false,
        "Team meetings cannot be reassigned. Only customer bookings can be reassigned."⟩) ∧
    (∃ db2 res, reassign_booking teamBookingDB adminCtx "BKG-5" "dave" =
        Except.ok (db2, res) ∧ res.success = true) := by
  have h := c5_team_meeting_reassignment teamBookingDB adminCtx "BKG-5" "dave"
    (mkBooking "BKG-5" "Confirmed" (1440 * 10 + 600) (1440 * 10 + 660) 60 true
      [⟨"carol", true, none⟩] [])
    none none rfl rfl rfl
  exact ⟨h.1, h.2 rfl rfl rfl⟩

/-- C9 (amended): `find_or_create_customer` resolves in this exact order --
primary email field, then secondary email rows, then (only when both email
searches missed and a nonempty phone was supplied) phone rows compared
after stripping whitespace, hyphens, parentheses and plus signs from both
sides (the `+` sign is stripped too, and characters outside that set are
kept); a phone hit attaches the new email to that customer instead of
creating a duplicate, and only when all three searches miss is a new
customer created from the given name/email/phone. -/
theorem c9_lookup_order (customers : List Customer) (email : String)
    (phone : Option String) (name : Option String) :
    (∀ c, (email == "") = false →
      customers.find? (fun c0 => strLower c0.primaryEmail == strLower (pyStrip email)) = some c →
      find_or_create_customer customers email phone name =
        Except.ok ⟨customers, c.name, false⟩) ∧
    (∀ c, (email == "") = false →
      customers.find? (fun c0 => strLower c0.primaryEmail == strLower (pyStrip email)) = none →
      customers.find? (fun c0 => c0.emailAddresses.any
        (fun r => strLower r.emailAddress == strLower (pyStrip email))) = some c →
      find_or_create_customer customers email phone name =
        Except.ok ⟨customers, c.name, false⟩) ∧
    (∀ c p, (email == "") = false →
      customers.find? (fun c0 => strLower c0.primaryEmail == strLower (pyStrip email)) = none →
      customers.find? (fun c0 => c0.emailAddresses.any
        (fun r => strLower r.emailAddress == strLower (pyStrip email))) = none →
      phone = some p → (p == "") = false →
      customers.find? (fun c0 => c0.phoneNumbers.any (fun r =>
        stripPhoneStored r.phoneNumber == stripPhoneQuery p)) = some c →
      find_or_create_customer customers email phone name =
        Except.ok ⟨customers.map (fun x => if x.name == c.name then
            {c with emailAddresses :=
              c.emailAddresses ++ [⟨strLower (pyStrip email), "Personal", false⟩]}
          else x), c.name, false⟩) ∧
    ((email == "") = false →
      customers.find? (fun c0 => strLower c0.primaryEmail == strLower (pyStrip email)) = none →
      customers.find? (fun c0 => c0.emailAddresses.any
        (fun r => strLower r.emailAddress == strLower (pyStrip email))) = none →
      (match phone with
       | none => True
       | some p => (p == "") = true ∨
           customers.find? (fun c0 => c0.phoneNumbers.any (fun r =>
             stripPhoneStored r.phoneNumber == stripPhoneQuery p)) = none) →
      ∃ cust, find_or_create_customer customers email phone name =
          Except.ok ⟨customers ++ [cust], cust.name, true⟩ ∧
        cust.primaryEmail = strLower (pyStrip email)) := by
  refine ⟨?_, ?_, ?_, ?_⟩
  · intro c h0 h1
    simp only [find_or_create_customer, h0, Bool.false_eq_true, if_false, h1]
  · intro c h0 h1 h2
    simp only [find_or_create_customer, h0, Bool.false_eq_true, if_false, h1, h2]
  · intro c p h0 h1 h2 hp hpne h3
    subst hp
    simp only [find_or_create_customer, h0, Bool.false_eq_true, if_false, h1, h2,
      hpne, h3]
  · intro h0 h1 h2 hmiss
    cases hp : phone with
    | none =>
      simp only [find_or_create_customer, h0, Bool.false_eq_true, if_false, h1, h2]
      exact ⟨_, rfl, rfl⟩
    | some p =>
      rw [hp] at hmiss
      rcases hmiss with hpe | hmiss
      · simp only [find_or_create_customer, h0, Bool.false_eq_true, if_false, h1, h2,
          hpe, if_true]
        exact ⟨_, rfl, rfl⟩
      · simp only [find_or_create_customer, h0, Bool.false_eq_true, if_false, h1, h2,
          hmiss]
        cases hpe : (p == "") with
        | true => simp only [hpe, if_true]; exact ⟨_, rfl, rfl⟩
        | false => simp only [hpe, Bool.false_eq_true, if_false, hmiss]; exact ⟨_, rfl, rfl⟩

/-- Counterexample for C9: the code strips the `+` sign (the spec's
normalization keeps a sign), so for a stored phone "+123" and query phone
"123" the code attaches the email to the existing customer while the
spec-worded normalization would create a new customer. -/
theorem c9_counterexample :
    stripPhoneStored "+123" = "123" ∧
    specNormalizePhone "+123" = "+123" ∧
    ((find_or_create_customer phoneCustomerDB "new@example.com" (some "123") none).toOption.map
        (fun r => (r.created, r.customerId))) = some (false, "CUST-0001") ∧
    ((findOrCreateCustomerSpec phoneCustomerDB "new@example.com" (some "123") none).toOption.map
        (fun r => r.created)) = some true := by
  refine ⟨rfl, rfl, by decide, by decide⟩

/-- Witness for C9 (amended): a phone-normalized match attaches the new
email to the matched customer. -/
theorem c9_witness :
    find_or_create_customer phoneCustomerDB "new@example.com" (some "123") none =
      Except.ok ⟨phoneCustomerDB.map (fun x => if x.name == "CUST-0001" then
          {(phoneCustomerDB.headD
              ⟨"", "", "", [], [], false⟩) with emailAddresses :=
            (phoneCustomerDB.headD ⟨"", "", "", [], [], false⟩).emailAddresses ++
              [⟨"new@example.com", "Personal", false⟩]}
        else x), "CUST-0001", false⟩ := by
  exact (c9_lookup_order phoneCustomerDB "new@example.com" (some "123") none).2.2.1
    (phoneCustomerDB.headD ⟨"", "", "", [], [], false⟩) "123" (by decide) (by decide)
    (by decide) rfl (by decide) (by decide)

/-! ### Lemmas for the `MM Customer` save invariant -/

theorem demote_emails_any (f : Bool) (l : List EmailRow) (p : String → Bool) :
    (demoteExtraPrimaryEmails f l).any (fun r => p r.emailAddress) =
      l.any (fun r => p r.emailAddress) := by
  induction l generalizing f with
  | nil => rfl
  | cons r rs ih =>
    cases hr : r.isPrimary <;> cases f <;>
      simp [demoteExtraPrimaryEmails, hr, ih]

theorem countPrimaryEmails_cons (r : EmailRow) (rs : List EmailRow) :
    countPrimaryEmails (r :: rs) =
      (if r.isPrimary then 1 else 0) + countPrimaryEmails rs := by
  cases hr : r.isPrimary <;>
    simp [countPrimaryEmails, List.filter_cons, hr] <;> omega

theorem demote_emails_count_true (l : List EmailRow) :
    countPrimaryEmails (demoteExtraPrimaryEmails true l) = 0 := by
  induction l with
  | nil => rfl
  | cons r rs ih =>
    cases hr : r.isPrimary <;>
      simp [demoteExtraPrimaryEmails, hr, countPrimaryEmails_cons, ih]

theorem demote_emails_count_false (l : List EmailRow) :
    countPrimaryEmails (demoteExtraPrimaryEmails false l) =
      min (countPrimaryEmails l) 1 := by
  induction l with
  | nil => rfl
  | cons r rs ih =>
    cases hr : r.isPrimary
    · simp [demoteExtraPrimaryEmails, hr, countPrimaryEmails_cons, ih]
    · have h0 := demote_emails_count_true rs
      simp [demoteExtraPrimaryEmails, hr, countPrimaryEmails_cons, h0]

theorem ensureSingle_email_count (c : Customer) (h : c.emailAddresses ≠ []) :
    countPrimaryEmails (ensureSinglePrimaryEmail c).emailAddresses = 1 := by
  rcases heq : c.emailAddresses with _ | ⟨r, rs⟩
  · exact absurd heq h
  · have hie : c.emailAddresses.isEmpty = false := by rw [heq]; rfl
    unfold ensureSinglePrimaryEmail
    rw [hie, heq]
    simp only [Bool.false_eq_true, if_false]
    by_cases h0 : countPrimaryEmails (r :: rs) = 0
    · have h0b : (countPrimaryEmails (r :: rs) == 0) = true := by simpa using h0
      simp only [h0b, if_true]
      have hrs : countPrimaryEmails rs = 0 := by
        rw [countPrimaryEmails_cons] at h0
        cases hr : r.isPrimary <;> rw [hr] at h0 <;> simp at h0 <;> omega
      simp [countPrimaryEmails_cons, hrs]
    · have h0b : (countPrimaryEmails (r :: rs) == 0) = false := by simp [h0]
      by_cases h1 : 1 < countPrimaryEmails (r :: rs)
      · simp only [h0b, Bool.false_eq_true, if_false, if_pos h1]
        rw [demote_emails_count_false]
        omega
      · simp only [h0b, Bool.false_eq_true, if_false, if_neg h1, heq]
        omega

theorem ensureSingle_email_any (c : Customer) (p : String → Bool) :
    (ensureSinglePrimaryEmail c).emailAddresses.any (fun r => p r.emailAddress) =
      c.emailAddresses.any (fun r => p r.emailAddress) := by
  rcases heq : c.emailAddresses with _ | ⟨r, rs⟩
  · simp [ensureSinglePrimaryEmail, heq]
  · have hie : c.emailAddresses.isEmpty = false := by rw [heq]; rfl
    unfold ensureSinglePrimaryEmail
    rw [hie, heq]
    simp only [Bool.false_eq_true, if_false]
    by_cases h0 : countPrimaryEmails (r :: rs) = 0
    · have h0b : (countPrimaryEmails (r :: rs) == 0) = true := by simpa using h0
      simp only [h0b, if_true]
      simp
    · have h0b : (countPrimaryEmails (r :: rs) == 0) = false := by simp [h0]
      by_cases h1 : 1 < countPrimaryEmails (r :: rs)
      · simp only [h0b, Bool.false_eq_true, if_false, if_pos h1]
        exact demote_emails_any false (r :: rs) p
      · simp only [h0b, Bool.false_eq_true, if_false, if_neg h1, heq]

theorem ensureSingle_email_primaryEmail (c : Customer) :
    (ensureSinglePrimaryEmail c).primaryEmail = c.primaryEmail := by
  rcases heq : c.emailAddresses with _ | ⟨r, rs⟩
  · simp [ensureSinglePrimaryEmail, heq]
  · have hie : c.emailAddresses.isEmpty = false := by rw [heq]; rfl
    unfold ensureSinglePrimaryEmail
    rw [hie, heq]
    simp only [Bool.false_eq_true, if_false]
    by_cases h0 : countPrimaryEmails (r :: rs) = 0
    · have h0b : (countPrimaryEmails (r :: rs) == 0) = true := by simpa using h0
      simp only [h0b, if_true]
    · have h0b : (countPrimaryEmails (r :: rs) == 0) = false := by simp [h0]
      by_cases h1 : 1 < countPrimaryEmails (r :: rs)
      · simp only [h0b, Bool.false_eq_true, if_false, if_pos h1]
      · simp only [h0b, Bool.false_eq_true, if_false, if_neg h1]

theorem ensurePhone_emails (c : Customer) :
    (ensureSinglePrimaryPhone c).emailAddresses = c.emailAddresses ∧
    (ensureSinglePrimaryPhone c).primaryEmail = c.primaryEmail := by
  refine ⟨?_, ?_⟩ <;>
  · rcases heq : c.phoneNumbers with _ | ⟨r, rs⟩
    · simp [ensureSinglePrimaryPhone, heq]
    · have hie : c.phoneNumbers.isEmpty = false := by rw [heq]; rfl
      unfold ensureSinglePrimaryPhone
      rw [hie, heq]
      simp only [Bool.false_eq_true, if_false]
      by_cases h0 : ((r :: rs).filter (fun x => x.isPrimary)).length = 0
      · have h0b : (((r :: rs).filter (fun x => x.isPrimary)).length == 0) = true := by
          simpa using h0
        simp only [h0b, if_true]
      · have h0b : (((r :: rs).filter (fun x => x.isPrimary)).length == 0) = false := by
          simp [h0]
        by_cases h1 : 1 < ((r :: rs).filter (fun x => x.isPrimary)).length
        · simp only [h0b, Bool.false_eq_true, if_false, if_pos h1]
        · simp only [h0b, Bool.false_eq_true, if_false, if_neg h1]

theorem ensureIn_mem (c : Customer) :
    (ensurePrimaryEmailInList c).emailAddresses.any
      (fun r => strLower r.emailAddress == strLower c.primaryEmail) = true := by
  unfold ensurePrimaryEmailInList
  by_cases h0 : c.emailAddresses.isEmpty
  · simp [h0]
  · by_cases h1 : c.emailAddresses.any
        (fun r => strLower r.emailAddress == strLower c.primaryEmail)
    · simp [h0, h1]
    · simp [h0, h1]

theorem ensureIn_primaryEmail (c : Customer) :
    (ensurePrimaryEmailInList c).primaryEmail = c.primaryEmail := by
  unfold ensurePrimaryEmailInList
  by_cases h0 : c.emailAddresses.isEmpty <;>
    by_cases h1 : c.emailAddresses.any
      (fun r => strLower r.emailAddress == strLower c.primaryEmail) <;>
    simp [h0, h1]

theorem ensureIn_ne_nil (c : Customer) :
    (ensurePrimaryEmailInList c).emailAddresses ≠ [] := by
  unfold ensurePrimaryEmailInList
  cases h0 : c.emailAddresses.isEmpty with
  | true => simp [h0]
  | false =>
    cases h1 : c.emailAddresses.any
        (fun r => strLower r.emailAddress == strLower c.primaryEmail) with
    | true =>
      simp only [h0, Bool.false_eq_true, if_false, h1, if_true]
      intro hc
      rw [hc] at h0
      exact absurd h0 (by simp)
    | false =>
      simp only [h0, Bool.false_eq_true, if_false, h1]
      simp

theorem validateCustomerName_ok {c d : Customer}
    (h : validateCustomerName c = Except.ok d) :
    d.emailAddresses = c.emailAddresses ∧ d.primaryEmail = c.primaryEmail := by
  unfold validateCustomerName at h
  split at h
  · cases h
  · cases h; exact ⟨rfl, rfl⟩

theorem validatePrimaryEmail_ok {c d : Customer}
    (h : validatePrimaryEmail c = Except.ok d) : d = c := by
  unfold validatePrimaryEmail at h
  split at h
  · cases h
  · split at h
    · cases h
    · cases h; rfl

theorem validatePrimaryEmailUnique_ok {others : List Customer} {c d : Customer}
    (h : validatePrimaryEmailUnique others c = Except.ok d) : d = c := by
  unfold validatePrimaryEmailUnique at h
  split at h
  · cases h; rfl
  · dsimp only at h
    split at h
    · cases h
    · split at h
      · cases h
      · cases h; rfl

theorem validateEmailAddresses_ok {c d : Customer}
    (h : validateEmailAddresses c = Except.ok d) : d = c := by
  unfold validateEmailAddresses at h
  split at h
  · cases h; rfl
  · split at h
    · cases h
    · cases h; rfl

theorem validateEmailsUniqueAcross_ok {others : List Customer} {c d : Customer}
    (h : validateEmailsUniqueAcross others c = Except.ok d) : d = c := by
  unfold validateEmailsUniqueAcross at h
  split at h
  · cases h
  · cases h; rfl

theorem validatePhoneNumbers_ok {c d : Customer}
    (h : validatePhoneNumbers c = Except.ok d) : d = c := by
  unfold validatePhoneNumbers at h
  split at h
  · cases h; rfl
  · split at h
    · cases h
    · cases h; rfl

theorem validatePhonesUniqueAcross_ok {others : List Customer} {c d : Customer}
    (h : validatePhonesUniqueAcross others c = Except.ok d) : d = c := by
  unfold validatePhonesUniqueAcross at h
  split at h
  · cases h
  · cases h; rfl

theorem exceptBind_ok {α β : Type} {x : Except String α} {f : α → Except String β}
    {b : β} (h : (x >>= f) = Except.ok b) :
    ∃ a, x = Except.ok a ∧ f a = Except.ok b := by
  cases x with
  | error e => exact absurd h (by simp [Bind.bind, Except.bind])
  | ok a => exact ⟨a, rfl, by simpa [Bind.bind, Except.bind] using h⟩

/-- C10: after every successful run of the `MM Customer` validation
pipeline, the primary email appears (case-insensitively) among the
email_addresses child rows and exactly one row is flagged primary;
moreover the single-primary step promotes the first row when none is
flagged and demotes all but the first flagged row when several are. -/
theorem c10_primary_email_invariant (others : List Customer) (c c2 : Customer)
    (h : mmCustomerValidate others c = Except.ok c2) :
    c2.emailAddresses.any
      (fun r => strLower r.emailAddress == strLower c2.primaryEmail) = true ∧
    countPrimaryEmails c2.emailAddresses = 1 ∧
    (∀ (x : Customer) (r : EmailRow) (rs : List EmailRow),
      x.emailAddresses = r :: rs → countPrimaryEmails (r :: rs) = 0 →
      (ensureSinglePrimaryEmail x).emailAddresses = {r with isPrimary := true} :: rs) ∧
    (∀ (x : Customer), 1 < countPrimaryEmails x.emailAddresses →
      (ensureSinglePrimaryEmail x).emailAddresses =
        demoteExtraPrimaryEmails false x.emailAddresses ∧
      countPrimaryEmails (demoteExtraPrimaryEmails false x.emailAddresses) = 1) := by
  unfold mmCustomerValidate at h
  obtain ⟨d1, h1, h⟩ := exceptBind_ok h
  obtain ⟨d2, h2, h⟩ := exceptBind_ok h
  obtain ⟨d3, h3, h⟩ := exceptBind_ok h
  obtain ⟨d4, h4, h⟩ := exceptBind_ok h
  obtain ⟨d5, h5, h⟩ := exceptBind_ok h
  obtain ⟨d6, h6, h⟩ := exceptBind_ok h
  obtain ⟨d7, h7, h⟩ := exceptBind_ok h
  simp only [pure, Except.pure, Except.ok.injEq] at h
  subst h
  refine ⟨?_, ?_, ?_, ?_⟩
  · have e1 := (ensurePhone_emails (ensureSinglePrimaryEmail
      (ensurePrimaryEmailInList d7))).1
    have e2 := (ensurePhone_emails (ensureSinglePrimaryEmail
      (ensurePrimaryEmailInList d7))).2
    rw [e1, e2, ensureSingle_email_primaryEmail, ensureIn_primaryEmail]
    exact (ensureSingle_email_any (ensurePrimaryEmailInList d7)
      (fun a => strLower a == strLower d7.primaryEmail)).trans (ensureIn_mem d7)
  · have e1 := (ensurePhone_emails (ensureSinglePrimaryEmail
      (ensurePrimaryEmailInList d7))).1
    rw [e1]
    exact ensureSingle_email_count _ (ensureIn_ne_nil d7)
  · intro x r rs hx h0
    unfold ensureSinglePrimaryEmail
    simp [hx, h0]
  · intro x hx
    have hne : x.emailAddresses ≠ [] := by
      intro hc
      rw [hc] at hx
      simp [countPrimaryEmails] at hx
    have hne0 : (countPrimaryEmails x.emailAddresses == 0) = false := by
      simp; omega
    constructor
    · unfold ensureSinglePrimaryEmail
      cases hl : x.emailAddresses with
      | nil => exact absurd hl hne
      | cons r rs =>
        rw [hl] at hne0 hx
        simp [hne0, hx, hl]
    · rw [demote_emails_count_false]
      omega

/-- Witness for C10: a customer whose primary email is missing from the
rows and whose two rows are both flagged primary is normalised to one
flagged row containing the primary email. -/
theorem c10_witness :
    ∃ c2, mmCustomerValidate []
        {name := "C1", customerName := "N", primaryEmail := "a@b.co",
         emailAddresses := [⟨"x@b.co", "Personal", true⟩, ⟨"y@b.co", "Personal", true⟩],
         phoneNumbers := [], isActive := true} = Except.ok c2 ∧
      c2.emailAddresses.any
        (fun r => strLower r.emailAddress == strLower c2.primaryEmail) = true ∧
      countPrimaryEmails c2.emailAddresses = 1 := by
  refine ⟨_, rfl, ?_, ?_⟩
  · exact (c10_primary_email_invariant []
      {name := "C1", customerName := "N", primaryEmail := "a@b.co",
       emailAddresses := [⟨"x@b.co", "Personal", true⟩, ⟨"y@b.co", "Personal", true⟩],
       phoneNumbers := [], isActive := true} _ rfl).1
  · exact (c10_primary_email_invariant []
      {name := "C1", customerName := "N", primaryEmail := "a@b.co",
       emailAddresses := [⟨"x@b.co", "Personal", true⟩, ⟨"y@b.co", "Personal", true⟩],
       phoneNumbers := [], isActive := true} _ rfl).2.1

end MeetingManager
